import Mathlib

/-!
Verification development for the TodoEvolve backend chat subsystem
(`backend/app/ai/engine.py`, `backend/app/ai/mcp_server.py`,
`backend/app/skills.py`, `backend/app/routes/chat.py`).

The Python code is shallowly embedded: JSON values are an inductive type,
`json.loads` is a fueled recursive-descent routine over the character list,
the provider gateway is parameterised by per-attempt outcome oracles, the
tool executor acts on an explicit task-store state, and the conversation
loop is a fueled state machine.  Python exceptions are modelled with
`Except String`.
-/

namespace TodoEvolve

/-- JSON values as produced by Python's `json.loads`.  Integer numbers are
kept exactly; non-integer numbers (a fraction or exponent part, or the
extended literals NaN/Infinity accepted by Python) keep their lexeme in
`fnum`. -/
inductive JsonValue where
  | null : JsonValue
  | bool (b : Bool) : JsonValue
  | num (n : Int) : JsonValue
  | fnum (lexeme : String) : JsonValue
  | str (s : String) : JsonValue
  | arr (elems : List JsonValue) : JsonValue
  | obj (members : List (String × JsonValue)) : JsonValue
deriving Repr, Inhabited

mutual

/-- Structural equality of JSON values (Python `==` on decoded values). -/
def jsonBeq : JsonValue → JsonValue → Bool
  | .null, .null => true
  | .bool a, .bool b => a == b
  | .num a, .num b => a == b
  | .fnum a, .fnum b => a == b
  | .str a, .str b => a == b
  | .arr a, .arr b => jsonBeqList a b
  | .obj a, .obj b => jsonBeqObj a b
  | _, _ => false
termination_by structural x => x

/-- Elementwise equality of JSON arrays. -/
def jsonBeqList : List JsonValue → List JsonValue → Bool
  | [], [] => true
  | x :: xs, y :: ys => jsonBeq x y && jsonBeqList xs ys
  | _, _ => false
termination_by structural x => x

/-- Memberwise equality of JSON objects (as association lists). -/
def jsonBeqObj : List (String × JsonValue) → List (String × JsonValue) → Bool
  | [], [] => true
  | (k, v) :: xs, (k', v') :: ys => k == k' && jsonBeq v v' && jsonBeqObj xs ys
  | _, _ => false
termination_by structural x => x

end

instance : BEq JsonValue := ⟨jsonBeq⟩

/-! ## Python string primitives -/

/-- Substring test: Python's `needle in haystack` (on char lists). An empty
needle is contained in everything, as in Python. -/
def containsSub (hay : List Char) (needle : List Char) : Bool :=
  match hay with
  | [] => needle.isEmpty
  | _ :: rest => needle.isPrefixOf hay || containsSub rest needle

/-- Python's `needle in haystack` on strings. -/
def pyIn (needle hay : String) : Bool :=
  containsSub hay.toList needle.toList

/-- Auxiliary for `pySplit`: fueled scan emitting the chunks between
occurrences of the (non-empty) separator. -/
def splitAux (sep : List Char) : Nat → List Char → List Char → List (List Char)
  | _, [], acc => [acc.reverse]
  | 0, cs, acc => [acc.reverse ++ cs]
  | fuel + 1, c :: cs, acc =>
    if sep.isPrefixOf (c :: cs) then
      acc.reverse :: splitAux sep fuel ((c :: cs).drop sep.length) []
    else
      splitAux sep fuel cs (c :: acc)

/-- Python's `s.split(sep)` for a non-empty separator. -/
def pySplit (s sep : String) : List String :=
  (splitAux sep.toList (s.length + 1) s.toList []).map List.asString

/-- Model of `xs[i]` with a default (call sites are guarded the way the Python
indexing is guarded by `in` checks). -/
def listGetD (xs : List String) (i : Nat) (d : String) : String :=
  xs.getD i d

/-- Whitespace stripped by Python's `str.strip()` (ASCII part). -/
def pyWs (c : Char) : Bool :=
  c = ' ' || c = '\t' || c = '\n' || c = '\r' || c = '\x0b' || c = '\x0c'

/-- Python's `s.strip()`. -/
def pyStrip (s : String) : String :=
  (((s.toList.dropWhile pyWs).reverse.dropWhile pyWs).reverse).asString

/-- Python's `s.lower()` (ASCII case folding; the strings scanned by the
gateway and the skills only rely on ASCII case). -/
def pyLower (s : String) : String :=
  (s.toList.map Char.toLower).asString

/-! ## Python `str()` rendering of JSON-shaped values

Used to model f-string interpolation of values taken from the model's
arguments (for instance the title interpolated into the add-task
message). -/

mutual

/-- Python `str(v)` for a value decoded from JSON. -/
def pyStr : JsonValue → String
  | .null => "None"
  | .bool true => "True"
  | .bool false => "False"
  | .num n => toString n
  | .fnum lexeme => lexeme
  | .str s => s
  | .arr elems => "[" ++ pyStrList elems ++ "]"
  | .obj members => "\x7b" ++ pyStrObj members ++ "\x7d"
termination_by structural v => v

/-- Comma-separated `repr`s of list elements (strings quoted). -/
def pyStrList : List JsonValue → String
  | [] => ""
  | [.str s] => "\x27" ++ s ++ "\x27"
  | [v] => pyStr v
  | .str s :: rest => "\x27" ++ s ++ "\x27" ++ ", " ++ pyStrList rest
  | v :: rest => pyStr v ++ ", " ++ pyStrList rest
termination_by structural l => l

/-- Comma-separated `repr: repr` renderings of dict members. -/
def pyStrObj : List (String × JsonValue) → String
  | [] => ""
  | [(k, .str s)] => "\x27" ++ k ++ "\x27: " ++ ("\x27" ++ s ++ "\x27")
  | [(k, v)] => "\x27" ++ k ++ "\x27: " ++ pyStr v
  | (k, .str s) :: rest => "\x27" ++ k ++ "\x27: " ++ ("\x27" ++ s ++ "\x27") ++ ", " ++ pyStrObj rest
  | (k, v) :: rest => "\x27" ++ k ++ "\x27: " ++ pyStr v ++ ", " ++ pyStrObj rest
termination_by structural l => l

end

/-- Python `repr(v)`: like `str` but strings are quoted. -/
def pyRepr : JsonValue → String
  | .str s => "\x27" ++ s ++ "\x27"
  | v => pyStr v

/-- Python `str(x)` where `x` is `None` or a JSON value (used for
`f"...{task_id}..."` where `task_id = arguments.get(...)`). -/
def pyStrOpt : Option JsonValue → String
  | none => "None"
  | some v => pyStr v

/-- Python truthiness of a value decoded from JSON. -/
def pyTruthy : JsonValue → Bool
  | .null => false
  | .bool b => b
  | .num n => n != 0
  | .fnum lexeme => lexeme != "0" && lexeme != "0.0" && lexeme != "-0.0"
  | .str s => s != ""
  | .arr elems => !elems.isEmpty
  | .obj members => !members.isEmpty

/-- Truthiness of `d.get(k)`: `None` (absent) is falsy. -/
def optTruthy : Option JsonValue → Bool
  | none => false
  | some v => pyTruthy v

/-! ## `json.loads`

A fueled recursive-descent decoder following Python's `json` module: the
whole input must be consumed up to trailing whitespace, numbers follow the
strict JSON grammar (plus Python's NaN/Infinity extensions), and duplicate
object keys are kept (dict construction keeps the last, which is how
`dictGet` below reads them). -/

/-- JSON whitespace (` `, tab, newline, carriage return). -/
def jsonWs (c : Char) : Bool :=
  c = ' ' || c = '\t' || c = '\n' || c = '\r'

/-- Skip JSON whitespace. -/
def skipWs : List Char → List Char
  | [] => []
  | c :: cs => if jsonWs c then skipWs cs else c :: cs

/-- Hex digit value. -/
def hexVal (c : Char) : Option Nat :=
  if '0' ≤ c ∧ c ≤ '9' then some (c.toNat - '0'.toNat)
  else if 'a' ≤ c ∧ c ≤ 'f' then some (c.toNat - 'a'.toNat + 10)
  else if 'A' ≤ c ∧ c ≤ 'F' then some (c.toNat - 'A'.toNat + 10)
  else none

/-- Scan a JSON string body (the opening quote already consumed), returning
the decoded characters and the rest after the closing quote. -/
def scanStr : Nat → List Char → Option (List Char × List Char)
  | 0, _ => none
  | _, [] => none
  | fuel + 1, c :: cs =>
    if c = '\x22' then
      some ([], cs)
    else if c = '\\' then
      match cs with
      | [] => none
      | e :: cs' =>
        let simple : Option Char :=
          if e = '\x22' then some '\x22'
          else if e = '\\' then some '\\'
          else if e = '/' then some '/'
          else if e = 'b' then some '\x08'
          else if e = 'f' then some '\x0c'
          else if e = 'n' then some '\n'
          else if e = 'r' then some '\r'
          else if e = 't' then some '\t'
          else none
        match simple with
        | some d =>
          match scanStr fuel cs' with
          | some (out, rest) => some (d :: out, rest)
          | none => none
        | none =>
          if e = 'u' then
            match cs' with
            | h1 :: h2 :: h3 :: h4 :: csRest =>
              match hexVal h1, hexVal h2, hexVal h3, hexVal h4 with
              | some a, some b, some c3, some d4 =>
                let code := ((a * 16 + b) * 16 + c3) * 16 + d4
                match scanStr fuel csRest with
                | some (out, rest) => some (Char.ofNat code :: out, rest)
                | none => none
              | _, _, _, _ => none
            | _ => none
          else none
    else
      match scanStr fuel cs with
      | some (out, rest) => some (c :: out, rest)
      | none => none

/-- Span of decimal digits. -/
def scanDigits : List Char → List Char × List Char
  | [] => ([], [])
  | c :: cs =>
    if c.isDigit then
      let (ds, rest) := scanDigits cs
      (c :: ds, rest)
    else ([], c :: cs)

/-- Build the scanned number: an exact `Int` when there is no fraction or
exponent part, otherwise an `fnum` keeping the lexeme. -/
def mkScannedNum (neg : Bool) (intDigits : List Char) (fracPart : Option (List Char))
    (expPart : Option (List Char)) : JsonValue :=
  match fracPart, expPart with
  | none, none =>
    let n : Nat := intDigits.foldl (fun acc d => 10 * acc + (d.toNat - '0'.toNat)) 0
    .num (if neg then -(n : Int) else (n : Int))
  | _, _ =>
    let lexeme := (if neg then ['-'] else []) ++ intDigits
      ++ (match fracPart with | some ds => '.' :: ds | none => [])
      ++ (match expPart with | some es => es | none => [])
    .fnum lexeme.asString

/-- Scan an optional exponent part and finish the number. -/
def scanExpAndFinish (neg : Bool) (intDigits : List Char) (fracPart : Option (List Char))
    (cs3 : List Char) : Option (JsonValue × List Char) :=
  match cs3 with
  | e :: rest =>
    if e == 'e' || e == 'E' then
      let (sign, rest1) :=
        match rest with
        | s :: r => if s == '+' || s == '-' then ([s], r) else (([] : List Char), rest)
        | [] => ([], rest)
      match scanDigits rest1 with
      | ([], _) => none
      | (ds, rest2) => some (mkScannedNum neg intDigits fracPart (some (e :: sign ++ ds)), rest2)
    else some (mkScannedNum neg intDigits fracPart none, cs3)
  | [] => some (mkScannedNum neg intDigits fracPart none, [])

/-- Scan a JSON number per the strict grammar
`-?(0|[1-9][0-9]*)(\.[0-9]+)?([eE][+-]?[0-9]+)?`, returning the value and
the remaining input. -/
def scanNum (cs : List Char) : Option (JsonValue × List Char) :=
  let (neg, cs1) :=
    match cs with
    | '-' :: rest => (true, rest)
    | _ => (false, cs)
  match scanDigits cs1 with
  | ([], _) => none
  | (intDigits, cs2) =>
    if intDigits.length > 1 && intDigits.headD '0' == '0' then none
    else
      match cs2 with
      | '.' :: rest =>
        match scanDigits rest with
        | ([], _) => none
        | (ds, rest') => scanExpAndFinish neg intDigits (some ds) rest'
      | _ => scanExpAndFinish neg intDigits none cs2

mutual

/-- Decode one JSON value from the front of the input. -/
def decodeVal : Nat → List Char → Option (JsonValue × List Char)
  | 0, _ => none
  | fuel + 1, cs =>
    match skipWs cs with
    | [] => none
    | '\x7b' :: rest => decodeMembers fuel (skipWs rest) true
    | '[' :: rest => decodeElems fuel (skipWs rest) true
    | '\x22' :: rest =>
      match scanStr (fuel + 1) rest with
      | some (out, rest') => some (.str out.asString, rest')
      | none => none
    | 't' :: 'r' :: 'u' :: 'e' :: rest => some (.bool true, rest)
    | 'f' :: 'a' :: 'l' :: 's' :: 'e' :: rest => some (.bool false, rest)
    | 'n' :: 'u' :: 'l' :: 'l' :: rest => some (.null, rest)
    | 'N' :: 'a' :: 'N' :: rest => some (.fnum "nan", rest)
    | 'I' :: 'n' :: 'f' :: 'i' :: 'n' :: 'i' :: 't' :: 'y' :: rest => some (.fnum "inf", rest)
    | '-' :: 'I' :: 'n' :: 'f' :: 'i' :: 'n' :: 'i' :: 't' :: 'y' :: rest =>
      some (.fnum "-inf", rest)
    | cs' => scanNum cs'

/-- Decode object members after `{` (`first` marks the position right after
the brace, where `}` closes an empty object). -/
def decodeMembers : Nat → List Char → Bool → Option (JsonValue × List Char)
  | 0, _, _ => none
  | fuel + 1, cs, first =>
    match cs with
    | '\x7d' :: rest =>
      if first then some (.obj [], rest) else none
    | _ =>
      match skipWs cs with
      | '\x22' :: afterQuote =>
        match scanStr (fuel + 1) afterQuote with
        | some (key, afterKey) =>
          match skipWs afterKey with
          | ':' :: afterColon =>
            match decodeVal fuel afterColon with
            | some (v, afterVal) =>
              match skipWs afterVal with
              | ',' :: afterComma =>
                match decodeMembers fuel (skipWs afterComma) false with
                | some (.obj members, rest) => some (.obj ((key.asString, v) :: members), rest)
                | _ => none
              | '\x7d' :: rest => some (.obj [(key.asString, v)], rest)
              | _ => none
            | none => none
          | _ => none
        | none => none
      | '\x7d' :: rest => if first then some (.obj [], rest) else none
      | _ => none

/-- Decode array elements after `[`. -/
def decodeElems : Nat → List Char → Bool → Option (JsonValue × List Char)
  | 0, _, _ => none
  | fuel + 1, cs, first =>
    match cs with
    | ']' :: rest =>
      if first then some (.arr [], rest) else none
    | _ =>
      match skipWs cs with
      | ']' :: rest => if first then some (.arr [], rest) else none
      | cs' =>
        match decodeVal fuel cs' with
        | some (v, afterVal) =>
          match skipWs afterVal with
          | ',' :: afterComma =>
            match decodeElems fuel (skipWs afterComma) false with
            | some (.arr elems, rest) => some (.arr (v :: elems), rest)
            | _ => none
          | ']' :: rest => some (.arr [v], rest)
          | _ => none
        | none => none

end

/-- Python's `json.loads`: decode one value and require only whitespace to
remain; any failure is a `JSONDecodeError`, modelled as `none`. -/
def json_loads (s : String) : Option JsonValue :=
  match decodeVal (2 * s.length + 2) s.toList with
  | some (v, rest) => if (skipWs rest).isEmpty then some v else none
  | none => none

/-! ## Response interpreter (`engine.py: extract_json`) -/

/-- Index of the first occurrence of `c`. -/
def firstIdx (cs : List Char) (c : Char) : Option Nat :=
  cs.findIdx? (fun x => x == c)

/-- Index of the last occurrence of `c`. -/
def lastIdx (cs : List Char) (c : Char) : Option Nat :=
  match firstIdx cs.reverse c with
  | some i => some (cs.length - 1 - i)
  | none => none

/-- The span matched by the greedy brace regex under `re.DOTALL`: with a
greedy dot-matches-newline `.*`, the match (when it exists) runs from the
first `\x7b` to the last `\x7d`, provided the latter comes strictly after
the former. -/
def braceSpan (text : String) : Option String :=
  let cs := text.toList
  match firstIdx cs '\x7b', lastIdx cs '\x7d' with
  | some i, some j => if i < j then some ((cs.drop i).take (j - i + 1)).asString else none
  | _, _ => none

/-- The inner content of the block following the first ```` ```json ````
marker: `text.split("```json")[1].split("```")[0].strip()`. -/
def fenceJsonBlock (text : String) : String :=
  pyStrip (listGetD (pySplit (listGetD (pySplit text "```json") 1 "") "```") 0 "")

/-- The inner content of the first fenced block:
`text.split("```")[1].split("```")[0].strip()`. -/
def fenceAnyBlock (text : String) : String :=
  pyStrip (listGetD (pySplit (listGetD (pySplit text "```") 1 "") "```") 0 "")

/-- Model of `engine.py: extract_json`.  Step 1 parses the whole text; step 2 is an
`if/elif` on the fence markers (so when ```` ```json ```` is present only
that block is tried, and on its parse failure control falls through to the
regex step); step 3 parses the greedy outermost brace span. -/
def extract_json (text : String) : Option JsonValue :=
  match json_loads text with
  | some v => some v
  | none =>
    let fenced : Option JsonValue :=
      if pyIn "```json" text then json_loads (fenceJsonBlock text)
      else if pyIn "```" text then json_loads (fenceAnyBlock text)
      else none
    match fenced with
    | some v => some v
    | none =>
      match braceSpan text with
      | some span => json_loads span
      | none => none

/-- Modelled from the spec's words (§4.3), for comparison with
`extract_json`: four attempts tried *in order, first success wins* — whole
text, the ```` ```json ````-labeled block, any fenced block, then the
greedy brace span.  Unlike the code, a failed attempt at the labeled block
still falls through to the generic fenced block. -/
def extract_json_spec (text : String) : Option JsonValue :=
  match json_loads text with
  | some v => some v
  | none =>
    match (if pyIn "```json" text then json_loads (fenceJsonBlock text) else none) with
    | some v => some v
    | none =>
      match (if pyIn "```" text then json_loads (fenceAnyBlock text) else none) with
      | some v => some v
      | none =>
        match braceSpan text with
        | some span => json_loads span
        | none => none

/-! ## Provider gateway (`engine.py: dual_provider_chat` and the two
provider adapters)

Network outcomes are abstracted by oracles: a per-model outcome function
for OpenRouter, a single outcome for Gemini, and — at the gateway level —
a per-attempt outcome function for each provider (the same provider call
may behave differently on each retry). -/

/-- Model of `engine.py: OPENROUTER_MODELS`. -/
def OPENROUTER_MODELS : List String :=
  ["meta-llama/llama-3.3-70b-instruct",
   "google/gemini-2.0-flash-001",
   "mistralai/mistral-large-2411",
   "openai/gpt-4o-mini"]

/-- Model of `model.split('/')[1].split(':')[0]`. -/
def modelShort (m : String) : String :=
  listGetD (pySplit (listGetD (pySplit m "/") 1 "") ":") 0 ""

/-- Try the OpenRouter models in order (`call_openrouter` inner loop),
remembering the last error. -/
def tryModels (api : String → Except String String) :
    List String → Option String → Except String (String × String)
  | [], lastError => .error (lastError.getD "All OpenRouter models failed")
  | m :: rest, lastError =>
    match api m with
    | .ok content =>
      let _ := lastError
      .ok (content, "openrouter/" ++ modelShort m)
    | .error e => tryModels api rest (some e)

/-- Model of `engine.py: call_openrouter`: raises "OpenRouter not configured" when
the client is absent, otherwise tries each candidate model in order and
re-raises the last error if all fail. -/
def call_openrouter (configured : Bool) (api : String → Except String String) :
    Except String (String × String) :=
  if !configured then .error "OpenRouter not configured"
  else tryModels api OPENROUTER_MODELS none

/-- Model of `engine.py: call_gemini`: raises "Gemini not configured" when the model
handle is absent, otherwise returns the API outcome tagged
"gemini/1.5-flash". -/
def call_gemini (configured : Bool) (api : Except String String) :
    Except String (String × String) :=
  if !configured then .error "Gemini not configured"
  else
    match api with
    | .ok text => .ok (text, "gemini/1.5-flash")
    | .error e => .error e

/-- Rate-limit detection in `dual_provider_chat`:
`"429" in str(e) or "rate" in error_str or "quota" in error_str` with
`error_str = str(e).lower()`. -/
def isRateLimited (e : String) : Bool :=
  pyIn "429" e || pyIn "rate" (pyLower e) || pyIn "quota" (pyLower e)

/-- One event of the gateway's retry loop, for stating scheduling
properties: an attempt (with its 0-based index and success flag) or a
backoff sleep of the given number of seconds. -/
inductive PEvent where
  | att (i : Nat) (ok : Bool) : PEvent
  | sleep (secs : Nat) : PEvent
deriving DecidableEq, Repr

/-- The inner `for attempt in range(max_retries)` loop of
`dual_provider_chat` for one provider, instrumented with its event trace.
`attempt` is the 0-based index of the next attempt and `remaining` the
number of attempts left; a rate-limited error breaks out immediately,
other errors sleep `attempt + 1` seconds when a retry is left. -/
def tryProvider (f : Nat → Except String (String × String)) :
    Nat → Nat → Option (String × String) × List PEvent
  | _, 0 => (none, [])
  | attempt, remaining + 1 =>
    match f attempt with
    | .ok res => (some res, [.att attempt true])
    | .error e =>
      if isRateLimited e then (none, [.att attempt false])
      else if remaining == 0 then (none, [.att attempt false])
      else
        ((tryProvider f (attempt + 1) remaining).1,
         .att attempt false :: .sleep (attempt + 1) :: (tryProvider f (attempt + 1) remaining).2)

/-- The fixed degraded-service reply of `dual_provider_chat`. -/
def DEGRADED_TEXT : String :=
  "I\x27m currently experiencing high demand on my AI services. Please try again in a few minutes."

/-- Model of `engine.py: dual_provider_chat` over the fixed provider list
`[("OpenRouter", call_openrouter), ("Gemini", call_gemini)]`, with
per-attempt outcome oracles `f1`, `f2` and the event trace tagged by
provider name.  Exhausting both providers returns the degraded text with
the sentinel identifier instead of raising. -/
def dual_provider_chat (f1 f2 : Nat → Except String (String × String))
    (max_retries : Nat := 2) : (String × String) × List (String × PEvent) :=
  match tryProvider f1 0 max_retries with
  | (some res, evs1) => (res, evs1.map (fun e => ("OpenRouter", e)))
  | (none, evs1) =>
    match tryProvider f2 0 max_retries with
    | (some res, evs2) =>
      (res, evs1.map (fun e => ("OpenRouter", e)) ++ evs2.map (fun e => ("Gemini", e)))
    | (none, evs2) =>
      ((DEGRADED_TEXT, "fallback"),
        evs1.map (fun e => ("OpenRouter", e)) ++ evs2.map (fun e => ("Gemini", e)))

/-! ## Task store and tool executor (`mcp_server.py: handle_tool_call`)

The relational store is a list of task rows plus the next autoincrement
id.  Field values coming from the model's arguments are stored verbatim
(SQLModel table models do not validate on construction), so the non-id
columns hold `JsonValue`s.  A commit that would write `None` into a
`NOT NULL` column (`title`, `description`, `priority`, `completed`)
raises; that exception is modelled as `Except.error` with a stand-in for
the driver's IntegrityError text. -/

/-- One row of the `tasks` table (the fields the executor touches). -/
structure Task where
  id : Int
  user_id : String
  title : JsonValue
  description : JsonValue
  completed : JsonValue
  priority : JsonValue
  tags : JsonValue
deriving Repr, Inhabited

/-- The task table plus its autoincrement counter. -/
structure TaskStore where
  tasks : List Task
  nextId : Int
deriving Repr, Inhabited

/-- Normalised result envelope of a tool handler: the Python dicts all
carry a `status`, usually a `message`, task dumps for `add_task` /
`list_tasks`, and assorted scalar entries (`language`, `priority`, ...). -/
structure ToolResult where
  status : String
  message : Option String
  tasks : List Task
  extra : List (String × JsonValue)
deriving Repr, Inhabited

/-- An error-status result with the given message. -/
def errResult (msg : String) : ToolResult :=
  { status := "error", message := some msg, tasks := [], extra := [] }

/-- A success-status result with the given message. -/
def okResult (msg : String) : ToolResult :=
  { status := "success", message := some msg, tasks := [], extra := [] }

/-- Model of `d.get(k)` on a dict decoded from JSON, with `d.get(k, default)`
semantics: a member whose value is JSON null decodes to Python `None`,
which `.null` denotes throughout.  Duplicate keys keep the last. -/
def dictGet (kvs : List (String × JsonValue)) (k : String) : Option JsonValue :=
  (kvs.reverse.find? (fun p => p.1 == k)).map (fun p => p.2)

/-- Model of `d.get(k, default)`. -/
def dictGetD (kvs : List (String × JsonValue)) (k : String) (d : JsonValue) : JsonValue :=
  (dictGet kvs k).getD d

/-- Stand-in for the DB driver's message when a commit writes `None` into
a `NOT NULL` column. -/
def NOT_NULL_ERR : String := "IntegrityError: NOT NULL constraint failed"

/-- Stand-in for the AttributeError raised by `.get` on a non-dict. -/
def pyShortTypeName : JsonValue → String
  | .null => "NoneType"
  | .bool _ => "bool"
  | .num _ => "int"
  | .fnum _ => "float"
  | .str _ => "str"
  | .arr _ => "list"
  | .obj _ => "dict"

/-- Python `str(type(v))`. -/
def pyTypeName (v : JsonValue) : String :=
  "<class \x27" ++ pyShortTypeName v ++ "\x27>"

/-- Model of `AttributeError` text for `v.get(...)` on a non-dict. -/
def attrGetErr (v : JsonValue) : String :=
  "\x27" ++ pyShortTypeName v ++ "\x27 object has no attribute \x27get\x27"

/-- Model of `AttributeError` text for `v.lower()` on a non-string. -/
def attrLowerErr (v : JsonValue) : String :=
  "\x27" ++ pyShortTypeName v ++ "\x27 object has no attribute \x27lower\x27"

/-- Does this row match the primary-key value handed to `session.get`?
Modelled as numeric lookup; a non-numeric key (including `None`) finds
nothing. -/
def pkMatches (idV : JsonValue) (t : Task) : Bool :=
  match idV with
  | .num n => t.id == n
  | _ => false

/-- Model of `session.get(Task, task_id)`. -/
def sessionGet (st : TaskStore) (idV : JsonValue) : Option Task :=
  st.tasks.find? (pkMatches idV)

/-- Replace the first row matching `p` (the ORM mutates the fetched row
object in place). -/
def replaceFirst (p : Task → Bool) (f : Task → Task) : List Task → List Task
  | [] => []
  | t :: ts => if p t then f t :: ts else t :: replaceFirst p f ts

/-- Delete the first row matching `p`. -/
def removeFirst (p : Task → Bool) : List Task → List Task
  | [] => []
  | t :: ts => if p t then ts else t :: removeFirst p ts

/-- Membership of a row's id in the model-supplied id list
(`col(Task.id).in_(task_ids)`); a non-list value selects nothing. -/
def inIdList (idsV : JsonValue) (t : Task) : Bool :=
  match idsV with
  | .arr ids => ids.contains (.num t.id)
  | _ => false

/-- Model of `add_task` branch. -/
def addTaskH (args : List (String × JsonValue)) (user_id : String) (st : TaskStore) :
    Except String (ToolResult × TaskStore) :=
  let title := dictGetD args "title" .null
  let desc := dictGetD args "description" (.str "")
  let priority := dictGetD args "priority" (.str "medium")
  let tags := dictGetD args "tags" (.arr [])
  if title == JsonValue.null || desc == JsonValue.null || priority == JsonValue.null then
    .error NOT_NULL_ERR
  else
    let task : Task :=
      { id := st.nextId, user_id := user_id, title := title, description := desc,
        completed := .bool false, priority := priority, tags := tags }
    .ok ({ status := "success",
           message := some ("Task created: \x27" ++ pyStr title ++ "\x27 with " ++ pyStr priority
             ++ " priority (ID: " ++ toString st.nextId ++ ")"),
           tasks := [task], extra := [] },
         { tasks := st.tasks ++ [task], nextId := st.nextId + 1 })

/-- The rows the `list_tasks` query returns: owned rows, optionally
filtered by completion status, limited (the SQL `LIMIT`; a negative limit
means no limit in SQLite, a non-numeric one is modelled as no limit). -/
def listSelect (args : List (String × JsonValue)) (user_id : String) (st : TaskStore) :
    List Task :=
  let status := dictGetD args "status" (.str "all")
  let limit := dictGetD args "limit" (.num 20)
  let owned := st.tasks.filter (fun t => t.user_id == user_id)
  let flt :=
    if status == JsonValue.str "pending" then
      owned.filter (fun t => t.completed == JsonValue.bool false)
    else if status == JsonValue.str "completed" then
      owned.filter (fun t => t.completed == JsonValue.bool true)
    else owned
  match limit with
  | .num n => if n < 0 then flt else flt.take n.toNat
  | _ => flt

/-- Model of `list_tasks` branch. -/
def listTasksH (args : List (String × JsonValue)) (user_id : String) (st : TaskStore) :
    Except String (ToolResult × TaskStore) :=
  let ts := listSelect args user_id st
  if ts.isEmpty then
    .ok ({ status := "success", message := some "No tasks found.", tasks := [], extra := [] }, st)
  else
    .ok ({ status := "success", message := some ("Found " ++ toString ts.length ++ " tasks."),
           tasks := ts, extra := [] }, st)

/-- Model of `complete_task` branch. -/
def completeTaskH (args : List (String × JsonValue)) (user_id : String) (st : TaskStore) :
    Except String (ToolResult × TaskStore) :=
  let task_id := dictGetD args "task_id" .null
  let completed := dictGetD args "completed" (.bool true)
  match sessionGet st task_id with
  | none =>
    .ok (errResult ("Task with ID " ++ pyStr task_id ++ " not found."), st)
  | some t =>
    if t.user_id != user_id then
      .ok (errResult ("Task with ID " ++ pyStr task_id ++ " not found."), st)
    else if completed == JsonValue.null then .error NOT_NULL_ERR
    else
      .ok (okResult ("Task \x27" ++ pyStr t.title ++ "\x27 has been "
             ++ (if pyTruthy completed then "completed" else "marked as pending") ++ "."),
           { st with tasks := (replaceFirst (pkMatches task_id)
               (fun x => { x with completed := completed }) st.tasks) })

/-- Model of `bulk_complete_tasks` branch. -/
def bulkCompleteH (args : List (String × JsonValue)) (user_id : String) (st : TaskStore) :
    Except String (ToolResult × TaskStore) :=
  let task_ids := dictGetD args "task_ids" (.arr [])
  let completed := dictGetD args "completed" (.bool true)
  if !pyTruthy task_ids then .ok (errResult "No task IDs provided.", st)
  else
    let selected := st.tasks.filter (fun t => inIdList task_ids t && t.user_id == user_id)
    if selected.isEmpty then .ok (errResult "No valid tasks found.", st)
    else if completed == JsonValue.null then .error NOT_NULL_ERR
    else
      .ok (okResult (toString selected.length ++ " tasks "
             ++ (if pyTruthy completed then "completed" else "marked as pending") ++ "."),
           { st with tasks := st.tasks.map (fun t =>
               if inIdList task_ids t && t.user_id == user_id then
                 { t with completed := completed }
               else t) })

/-- The row filter of the title path of `delete_task`:
`Task.user_id == user_id AND Task.title ILIKE` the rendered pattern — owned rows whose
string title contains the rendered pattern case-insensitively. -/
def titleMatchPred (titleV : JsonValue) (user_id : String) (t : Task) : Bool :=
  t.user_id == user_id &&
    (match t.title with
     | .str s => containsSub (pyLower s).toList (pyLower (pyStr titleV)).toList
     | _ => false)

/-- Model of `delete_task` branch. -/
def deleteTaskH (args : List (String × JsonValue)) (user_id : String) (st : TaskStore) :
    Except String (ToolResult × TaskStore) :=
  let task_id := dictGetD args "task_id" .null
  let title_match := dictGetD args "title" .null
  if pyTruthy task_id then
    match sessionGet st task_id with
    | some t =>
      if t.user_id != user_id then .ok (errResult "Task not found.", st)
      else
        .ok (okResult ("Task \x27" ++ pyStr t.title ++ "\x27 has been deleted."),
             { st with tasks := removeFirst (pkMatches task_id) st.tasks })
    | none => .ok (errResult "Task not found.", st)
  else if pyTruthy title_match then
    match st.tasks.find? (titleMatchPred title_match user_id) with
    | some t =>
      .ok (okResult ("Task \x27" ++ pyStr t.title ++ "\x27 has been deleted."),
           { st with tasks := removeFirst (titleMatchPred title_match user_id) st.tasks })
    | none => .ok (errResult "Task not found.", st)
  else
    .ok (errResult "Please provide either task_id or title to delete.", st)

/-- Model of `bulk_delete_tasks` branch. -/
def bulkDeleteH (args : List (String × JsonValue)) (user_id : String) (st : TaskStore) :
    Except String (ToolResult × TaskStore) :=
  let task_ids := dictGetD args "task_ids" (.arr [])
  if !pyTruthy task_ids then .ok (errResult "No task IDs provided.", st)
  else
    let selected := st.tasks.filter (fun t => inIdList task_ids t && t.user_id == user_id)
    if selected.isEmpty then .ok (errResult "No valid tasks found to delete.", st)
    else
      .ok (okResult ("Deleted " ++ toString selected.length ++ " tasks."),
           { st with tasks := st.tasks.filter (fun t =>
               !(inIdList task_ids t && t.user_id == user_id)) })

/-- Model of `update_task` branch. -/
def updateTaskH (args : List (String × JsonValue)) (user_id : String) (st : TaskStore) :
    Except String (ToolResult × TaskStore) :=
  let task_id := dictGetD args "task_id" .null
  match sessionGet st task_id with
  | none =>
    .ok (errResult ("Task with ID " ++ pyStr task_id ++ " not found."), st)
  | some t =>
    if t.user_id != user_id then
      .ok (errResult ("Task with ID " ++ pyStr task_id ++ " not found."), st)
    else
      let newTitle := (dictGet args "title").getD t.title
      let newDesc := (dictGet args "description").getD t.description
      let newPrio := (dictGet args "priority").getD t.priority
      if newTitle == JsonValue.null || newDesc == JsonValue.null
          || newPrio == JsonValue.null then
        .error NOT_NULL_ERR
      else
        .ok (okResult ("Task #" ++ toString t.id ++ " has been updated: \x27"
               ++ pyStr newTitle ++ "\x27 (" ++ pyStr newPrio ++ ")"),
             { st with tasks := (replaceFirst (pkMatches task_id)
                 (fun x =>
                   { x with title := newTitle, description := newDesc, priority := newPrio })
                 st.tasks) })

/-- Outcome of the weather lookup (the network section of `get_weather` is a
`try/except` that always produces a result dict, never an exception). -/
structure WeatherReply where
  status : String
  message : Option String
  extra : List (String × JsonValue)
deriving Repr, Inhabited

/-- Model of `get_weather` branch, with the network abstracted by `wx`. -/
def getWeatherH (wx : String → WeatherReply) (args : List (String × JsonValue))
    (st : TaskStore) : Except String (ToolResult × TaskStore) :=
  let city := dictGetD args "city" .null
  if !pyTruthy city then .ok (errResult "City name is required.", st)
  else
    let w := wx (pyStr city)
    .ok ({ status := w.status, message := w.message, tasks := [], extra := w.extra }, st)

/-! ## Skills (`skills.py`) -/

/-- Model of `LangDetectorSkill.execute`: any character in the Urdu block
U+0600–U+06FF. -/
def langDetectorExecute (content : String) : String :=
  if content.toList.any (fun c => 0x600 ≤ c.toNat && c.toNat ≤ 0x6FF) then "ur" else "en"

/-- Keyword lists of `PrioritySuggesterSkill`. -/
def HIGH_KEYWORDS : List String :=
  ["urgent", "asap", "immediate", "today", "critical", "important", "ضروری", "آج"]

/-- Medium-priority keywords. -/
def MEDIUM_KEYWORDS : List String := ["tomorrow", "week", "soon", "later", "کل"]

/-- Low-priority keywords. -/
def LOW_KEYWORDS : List String := ["someday", "maybe", "wish", "whenever", "کبھی"]

/-- Model of `PrioritySuggesterSkill.execute`. -/
def prioritySuggesterExecute (content : String) : String :=
  let cl := pyLower content
  if HIGH_KEYWORDS.any (fun k => pyIn k cl) then "high"
  else if MEDIUM_KEYWORDS.any (fun k => pyIn k cl) then "medium"
  else if LOW_KEYWORDS.any (fun k => pyIn k cl) then "low"
  else "medium"

/-- Model of `ReminderSchedulerSkill.execute`; `now` is the current time in seconds
and the returned datetimes are `now + 1 day` / `now + 1 week`. -/
def reminderSchedulerExecute (now : Nat) (content : String) : Option Nat :=
  let cl := pyLower content
  if pyIn "tomorrow" cl || pyIn "کل" cl then some (now + 86400)
  else if pyIn "next week" cl then some (now + 604800)
  else none

/-- The minimal-pod YAML returned by `DeploymentBlueprintSkill`. -/
def MINIMAL_POD_YAML : String :=
  "\napiVersion: v1\nkind: Pod\nmetadata:\n  name: minimal-pod\nspec:\n  containers:\n  - name: nginx\n    image: nginx:alpine\n"

/-- Model of `DeploymentBlueprintSkill.execute`. -/
def deploymentBlueprintExecute (content : String) : String :=
  let cl := pyLower content
  if pyIn "minimal" cl then MINIMAL_POD_YAML
  else if pyIn "scale" cl then "kubectl scale deployment frontend --replicas=3"
  else "Available blueprints: minimal-pod, scale-deployment"

/-- One chat-completion message (`{"role": ..., "content": ...}`). -/
structure Msg where
  role : String
  content : String
deriving DecidableEq, Repr, Inhabited

/-- The dedicated instruction prompt of `DayPlannerSkill`. -/
def DAY_PLANNER_PROMPT : String :=
  "You are a pro-active planning assistant.\nConvert the user\x27s request into a list of tasks.\nReturn STRICTLY a JSON list of objects. No markdown, no prose.\nEach object must have:\n- title (str)\n- description (str, optional)\n- priority (high/medium/low)\n- tags (list of strings)\n\nExample Input: \"Plan my day: Code at 9, Lunch at 12\"\nExample Output:\n[\n    \x7b\"title\": \"Code\", \"description\": \"at 9\", \"priority\": \"high\", \"tags\": [\"work\"]\x7d,\n    \x7b\"title\": \"Lunch\", \"description\": \"at 12\", \"priority\": \"medium\", \"tags\": [\"personal\"]\x7d\n]\n"

/-- Stand-in for the `json.JSONDecodeError` text interpolated into
`f"Failed to generate plan: {e}"`. -/
def JSON_DECODE_ERR : String := "Expecting value"

/-- The object members of a JSON value, when it is an object. -/
def asObjMembers : JsonValue → Option (List (String × JsonValue))
  | .obj kvs => some kvs
  | _ => none

/-- Build one task row per parsed planner object, assigning sequential
ids from `startId`. -/
def planTasks (user_id : String) (startId : Int) :
    List (List (String × JsonValue)) → List Task
  | [] => []
  | kvs :: rest =>
    { id := startId, user_id := user_id,
      title := dictGetD kvs "title" (.str "Untitled"),
      description := dictGetD kvs "description" (.str ""),
      completed := .bool false,
      priority := dictGetD kvs "priority" (.str "medium"),
      tags := dictGetD kvs "tags" (.arr []) } :: planTasks user_id (startId + 1) rest

/-- Does some created row carry a `None` in a `NOT NULL` column (ruining
the commit)? -/
def planRowNull (t : Task) : Bool :=
  t.title == JsonValue.null || t.description == JsonValue.null
    || t.priority == JsonValue.null

/-- Model of `", ".join(titles)`: succeeds only when every title is a `str`. -/
def joinTitles : List JsonValue → Option String
  | [] => some ""
  | [.str s] => some s
  | .str s :: rest =>
    match joinTitles rest with
    | some r => some (s ++ ", " ++ r)
    | none => none
  | _ => none

/-- The message list the day planner sends through the gateway. -/
def plannerMessages (content : JsonValue) : List Msg :=
  [⟨"system", DAY_PLANNER_PROMPT⟩, ⟨"user", pyStr content⟩]

/-- The string the day planner hands to `json.loads`: the stripped gateway
response, unwrapped from a fenced block when one is present (the same
`if/elif` technique as the fence step of `extract_json` — no whole-text retry
and no regex fallback). -/
def planJson (llm : List Msg → String × String) (content : JsonValue) : String :=
  let s0 := pyStrip ((llm (plannerMessages content)).1)
  if pyIn "```json" s0 then fenceJsonBlock s0
  else if pyIn "```" s0 then fenceAnyBlock s0
  else s0

/-- Model of `DayPlannerSkill.execute`: call the gateway with the planner prompt,
strip fences, `json.loads`, require a top-level list, create one task per
element, and catch every exception into a `"Failed to generate plan: ..."`
string.  A parse failure or a non-dict element aborts before the commit
(store unchanged); a non-str title breaks the final `", ".join` after the
commit (tasks created, failure text returned). -/
def dayPlannerExecute (llm : List Msg → String × String) (content : JsonValue)
    (user_id : String) (st : TaskStore) : String × TaskStore :=
  if user_id == "" then ("Error: Session or User ID missing for planning.", st)
  else
    match json_loads (planJson llm content) with
    | none => ("Failed to generate plan: " ++ JSON_DECODE_ERR, st)
    | some v =>
      match v with
      | .arr elems =>
        match elems.mapM asObjMembers with
        | none =>
          match elems.find? (fun e => (asObjMembers e).isNone) with
          | some bad => ("Failed to generate plan: " ++ attrGetErr bad, st)
          | none => ("Failed to generate plan: " ++ attrGetErr .null, st)
        | some objs =>
          let newTasks := planTasks user_id st.nextId objs
          if newTasks.any planRowNull then
            ("Failed to generate plan: " ++ NOT_NULL_ERR, st)
          else
            let st' : TaskStore :=
              { tasks := st.tasks ++ newTasks, nextId := st.nextId + newTasks.length }
            if newTasks.length == 0 then ("No tasks identified in your request.", st')
            else
              match joinTitles (newTasks.map (fun t => t.title)) with
              | some joined =>
                ("I\x27ve created " ++ toString newTasks.length ++ " tasks for you: "
                  ++ joined ++ ".", st')
              | none =>
                ("Failed to generate plan: sequence item: expected str instance", st')
      | _ => ("Error: AI returned " ++ pyTypeName v ++ ", expected list.", st)

/-- The tool names `handle_tool_call` has a branch for. -/
def KNOWN_TOOLS : List String :=
  ["add_task", "list_tasks", "complete_task", "bulk_complete_tasks", "delete_task",
   "bulk_delete_tasks", "update_task", "get_weather", "detect_language",
   "suggest_priority", "schedule_reminder", "get_deployment_blueprint", "plan_day"]

/-- Model of `mcp_server.py: handle_tool_call`: one branch per tool name; an
unknown name raises `ValueError(f"Tool not found: {name}")`.  `wx`
abstracts the weather HTTP calls, `llm` the nested gateway call made by
the day planner, `now` the wall clock read by the reminder skill. -/
def handle_tool_call (wx : String → WeatherReply) (llm : List Msg → String × String)
    (now : Nat) (name : String) (args : List (String × JsonValue)) (user_id : String)
    (st : TaskStore) : Except String (ToolResult × TaskStore) :=
  if name == "add_task" then addTaskH args user_id st
  else if name == "list_tasks" then listTasksH args user_id st
  else if name == "complete_task" then completeTaskH args user_id st
  else if name == "bulk_complete_tasks" then bulkCompleteH args user_id st
  else if name == "delete_task" then deleteTaskH args user_id st
  else if name == "bulk_delete_tasks" then bulkDeleteH args user_id st
  else if name == "update_task" then updateTaskH args user_id st
  else if name == "get_weather" then getWeatherH wx args st
  else if name == "detect_language" then
    match dictGetD args "text" (.str "") with
    | .str s =>
      .ok ({ status := "success", message := none, tasks := [],
             extra := [("language", .str (langDetectorExecute s))] }, st)
    | _ => .error "expected string or bytes-like object"
  else if name == "suggest_priority" then
    match dictGetD args "text" (.str "") with
    | .str s =>
      .ok ({ status := "success", message := none, tasks := [],
             extra := [("priority", .str (prioritySuggesterExecute s))] }, st)
    | v => .error (attrLowerErr v)
  else if name == "schedule_reminder" then
    match dictGetD args "text" (.str "") with
    | .str s =>
      .ok ({ status := "success", message := none, tasks := [],
             extra := [("reminder_date",
               match reminderSchedulerExecute now s with
               | some d => .str (toString d)
               | none => .null)] }, st)
    | v => .error (attrLowerErr v)
  else if name == "get_deployment_blueprint" then
    match dictGetD args "type" (.str "minimal") with
    | .str s =>
      .ok ({ status := "success", message := none, tasks := [],
             extra := [("blueprint", .str (deploymentBlueprintExecute s))] }, st)
    | v => .error (attrLowerErr v)
  else if name == "plan_day" then
    let request := dictGetD args "request" (.str "")
    .ok ({ status := "success",
           message := some (dayPlannerExecute llm request user_id st).1,
           tasks := [], extra := [] },
         (dayPlannerExecute llm request user_id st).2)
  else .error ("Tool not found: " ++ name)

/-- The executor call as made by the conversation loop: `tool_name` and
`tool_args` come straight out of the extracted JSON, so a non-string name
falls through every branch (ValueError) and a known name with non-dict
arguments dies on the first `arguments.get` (AttributeError). -/
def dispatchTool (wx : String → WeatherReply) (llm : List Msg → String × String)
    (now : Nat) (nameV argsV : JsonValue) (user_id : String) (st : TaskStore) :
    Except String (ToolResult × TaskStore) :=
  match nameV with
  | .str s =>
    match argsV with
    | .obj kvs => handle_tool_call wx llm now s kvs user_id st
    | _ =>
      if KNOWN_TOOLS.contains s then .error (attrGetErr argsV)
      else .error ("Tool not found: " ++ s)
  | v => .error ("Tool not found: " ++ pyStr v)

/-! ## JSON serialization (`json.dumps` with default separators) -/

/-- Escape a string for JSON output (quote and backslash; enough for the
catalog and result texts). -/
def jsonEscape (s : String) : String :=
  (s.toList.map (fun c =>
    if c = '\x22' then "\\\"" else if c = '\\' then "\\\\" else String.mk [c])).foldl
    (fun a b => a ++ b) ""

mutual

/-- Model of `json.dumps(v)` with the default `", "` / `": "` separators. -/
def jsonDump : JsonValue → String
  | .null => "null"
  | .bool true => "true"
  | .bool false => "false"
  | .num n => toString n
  | .fnum lexeme => lexeme
  | .str s => "\"" ++ jsonEscape s ++ "\""
  | .arr elems => "[" ++ jsonDumpList elems ++ "]"
  | .obj members => "\x7b" ++ jsonDumpObj members ++ "\x7d"
termination_by structural v => v

/-- Array body. -/
def jsonDumpList : List JsonValue → String
  | [] => ""
  | [v] => jsonDump v
  | v :: rest => jsonDump v ++ ", " ++ jsonDumpList rest
termination_by structural l => l

/-- Object body. -/
def jsonDumpObj : List (String × JsonValue) → String
  | [] => ""
  | [(k, v)] => "\"" ++ jsonEscape k ++ "\": " ++ jsonDump v
  | (k, v) :: rest => "\"" ++ jsonEscape k ++ "\": " ++ jsonDump v ++ ", " ++ jsonDumpObj rest
termination_by structural l => l

end

/-! ## Tool catalog (`mcp_server.py: list_tools`, `get_tool_definitions`) -/

/-- Model of `add_task` input schema. -/
def addTaskSchema : JsonValue := .obj
  [("type", .str "object"),
   ("properties", .obj
     [("title", .obj [("type", .str "string"), ("description", .str "Task title")]),
      ("description", .obj [("type", .str "string"), ("description", .str "Task description")]),
      ("priority", .obj [("type", .str "string"),
        ("enum", .arr [.str "high", .str "medium", .str "low"])]),
      ("tags", .obj [("type", .str "array"), ("items", .obj [("type", .str "string")])])]),
   ("required", .arr [.str "title"])]

/-- Model of `list_tasks` input schema. -/
def listTasksSchema : JsonValue := .obj
  [("type", .str "object"),
   ("properties", .obj
     [("status", .obj [("type", .str "string"),
        ("enum", .arr [.str "all", .str "pending", .str "completed"])]),
      ("limit", .obj [("type", .str "integer"), ("default", .num 20)])])]

/-- Model of `complete_task` input schema. -/
def completeTaskSchema : JsonValue := .obj
  [("type", .str "object"),
   ("properties", .obj
     [("task_id", .obj [("type", .str "integer"), ("description", .str "ID of task to toggle")]),
      ("completed", .obj [("type", .str "boolean"),
        ("description", .str "True to mark complete, False for incomplete")])]),
   ("required", .arr [.str "task_id"])]

/-- Model of `bulk_complete_tasks` input schema. -/
def bulkCompleteSchema : JsonValue := .obj
  [("type", .str "object"),
   ("properties", .obj
     [("task_ids", .obj [("type", .str "array"), ("items", .obj [("type", .str "integer")]),
        ("description", .str "List of task IDs")]),
      ("completed", .obj [("type", .str "boolean"),
        ("description", .str "True to mark complete, False to mark incomplete")])]),
   ("required", .arr [.str "task_ids"])]

/-- Model of `delete_task` input schema. -/
def deleteTaskSchema : JsonValue := .obj
  [("type", .str "object"),
   ("properties", .obj
     [("task_id", .obj [("type", .str "integer"), ("description", .str "ID of task to delete")]),
      ("title", .obj [("type", .str "string"),
        ("description", .str "Title of task to delete (fuzzy match)")])])]

/-- Model of `bulk_delete_tasks` input schema. -/
def bulkDeleteSchema : JsonValue := .obj
  [("type", .str "object"),
   ("properties", .obj
     [("task_ids", .obj [("type", .str "array"), ("items", .obj [("type", .str "integer")]),
        ("description", .str "List of task IDs to delete")])]),
   ("required", .arr [.str "task_ids"])]

/-- Model of `update_task` input schema. -/
def updateTaskSchema : JsonValue := .obj
  [("type", .str "object"),
   ("properties", .obj
     [("task_id", .obj [("type", .str "integer"), ("description", .str "ID of task to update")]),
      ("title", .obj [("type", .str "string"), ("description", .str "New title")]),
      ("description", .obj [("type", .str "string"), ("description", .str "New description")]),
      ("priority", .obj [("type", .str "string"),
        ("enum", .arr [.str "high", .str "medium", .str "low"])])]),
   ("required", .arr [.str "task_id"])]

/-- Model of `get_weather` input schema. -/
def getWeatherSchema : JsonValue := .obj
  [("type", .str "object"),
   ("properties", .obj
     [("city", .obj [("type", .str "string"),
        ("description", .str "City name (e.g. Karachi, London)")])]),
   ("required", .arr [.str "city"])]

/-- Model of `plan_day` input schema. -/
def planDaySchema : JsonValue := .obj
  [("type", .str "object"),
   ("properties", .obj
     [("request", .obj [("type", .str "string"),
        ("description", .str "User\x27s request (e.g., \x27Plan my day with gym at 9 and work at 10\x27)")])]),
   ("required", .arr [.str "request"])]

/-- Model of `detect_language` input schema. -/
def detectLanguageSchema : JsonValue := .obj
  [("type", .str "object"),
   ("properties", .obj
     [("text", .obj [("type", .str "string"), ("description", .str "Text to analyze")])]),
   ("required", .arr [.str "text"])]

/-- Model of `suggest_priority` input schema. -/
def suggestPrioritySchema : JsonValue := .obj
  [("type", .str "object"),
   ("properties", .obj
     [("text", .obj [("type", .str "string"),
        ("description", .str "Task description or context")])]),
   ("required", .arr [.str "text"])]

/-- Model of `schedule_reminder` input schema. -/
def scheduleReminderSchema : JsonValue := .obj
  [("type", .str "object"),
   ("properties", .obj
     [("text", .obj [("type", .str "string"),
        ("description", .str "Time-related text (tomorrow, next week)")])]),
   ("required", .arr [.str "text"])]

/-- Model of `get_deployment_blueprint` input schema. -/
def blueprintSchema : JsonValue := .obj
  [("type", .str "object"),
   ("properties", .obj
     [("type", .obj [("type", .str "string"),
        ("description", .str "Blueprint type (minimal, scale)")])]),
   ("required", .arr [.str "type"])]

/-- The catalog in `list_tools` order: name, description, input schema. -/
def TOOL_CATALOG : List (String × String × JsonValue) :=
  [("add_task", "Create a new task", addTaskSchema),
   ("list_tasks", "List current tasks", listTasksSchema),
   ("complete_task", "Mark a task as complete or incomplete", completeTaskSchema),
   ("bulk_complete_tasks", "Mark multiple tasks as complete or incomplete", bulkCompleteSchema),
   ("delete_task", "Delete a task by ID or title", deleteTaskSchema),
   ("bulk_delete_tasks", "Delete multiple tasks by ID", bulkDeleteSchema),
   ("update_task", "Update a task\x27s title, description, or priority", updateTaskSchema),
   ("get_weather", "Get current weather for a city", getWeatherSchema),
   ("plan_day", "Intelligently plan the day and create multiple tasks based on user request",
     planDaySchema),
   ("detect_language", "Detect language of text (ur/en)", detectLanguageSchema),
   ("suggest_priority", "Suggest priority based on content", suggestPrioritySchema),
   ("schedule_reminder", "Parse recurrence or due dates", scheduleReminderSchema),
   ("get_deployment_blueprint", "Get K8s deployment YAML", blueprintSchema)]

/-- Model of `mcp_server.py: get_tool_definitions`: one four-line stanza per tool
joined by newlines. -/
def get_tool_definitions (catalog : List (String × String × JsonValue)) : String :=
  String.intercalate "\n"
    ((catalog.map (fun e =>
      ["Tool: " ++ e.1, "Description: " ++ e.2.1,
       "Input Schema: " ++ jsonDump e.2.2, "---"])).flatten)

/-! ## Conversation loop (`routes/chat.py: chat_endpoint`) -/

/-- Model of `SYSTEM_PROMPT_TEMPLATE.format(tool_definitions=..., user_id=...,
language=...)`. -/
def systemPrompt (toolDefs user_id language : String) : String :=
  "You are TodoEvolve, a smart, productivity-focused AI assistant.\nYour goal is to help users manage their tasks efficiently using the available tools.\n\nYou have access to:\n"
  ++ toolDefs
  ++ "\n\n### RULES:\n1. **Always use tools** to perform actions. Do not just say you did it.\n2. **Context Awareness**: To act on specific tasks (delete/complete/update), first call `list_tasks` to find their IDs. Then, in the NEXT turn, use `bulk_delete_tasks` or `bulk_complete_tasks` to perform the action on all identified tasks at once. Do NOT guess IDs.\n3. **Format**: To call a tool, reply with JUST the JSON object:\n\x7b\n    \"tool\": \"tool_name\",\n    \"arguments\": \x7b ... \x7d\n\x7d\n4. If asked about weather, use `get_weather`.\n5. If the user asks to \"Plan my day\" or generate a schedule, use `plan_day`.\n6. Be concise and helpful.\n7. **Natural Language**: When listing tasks or plans, use natural language (e.g., \"Meeting at 2 PM\"). NEVER show internal IDs (like \"ID: 109\") to the user unless explicitly asked for debugging. Keep IDs internal for tool use only.\n\nCurrent Context:\nUser ID: "
  ++ user_id ++ "\nLanguage: " ++ language ++ "\n"

/-- A row of the persisted `chat_messages` table (the fields the endpoint
writes). -/
structure ChatMsg where
  user_id : String
  role : String
  content : String
deriving DecidableEq, Repr, Inhabited

/-- Normalized rendering of a tool result for
`f"Tool Output: {json.dumps(tool_result, default=str)}"`.  (The Python
dicts vary their keys per branch; this rendering only feeds the abstract
provider oracle.) -/
def toolResultJson (r : ToolResult) : JsonValue :=
  .obj ([("status", .str r.status)]
    ++ (match r.message with | some m => [("message", .str m)] | none => [])
    ++ [("tasks", .arr (r.tasks.map (fun t => .obj
          [("id", .num t.id), ("user_id", .str t.user_id), ("title", t.title),
           ("description", t.description), ("completed", t.completed),
           ("priority", t.priority), ("tags", t.tags)])))]
    ++ r.extra)

/-- The in-flight state of the conversation loop. -/
structure LoopState where
  msgs : List Msg
  store : TaskStore
  action : Bool
  lastTool : Option JsonValue
  usedModel : Option String
  toolCalls : Nat
deriving Repr, Inhabited

/-- How a run of the loop body ends: a final text answer, the turn
ceiling, or an uncaught exception (carrying the exception text and the
state at the point of failure). -/
inductive LoopOutcome where
  | final (text : String) (st : LoopState) : LoopOutcome
  | ceiling (st : LoopState) : LoopOutcome
  | failed (err : String) (st : LoopState) : LoopOutcome
deriving Repr, Inhabited

/-- Model of `while turn_count < MAX_TURNS` body of `chat_endpoint`: call the
gateway (abstracted as `ai`), try to extract a tool call, return the text
as final if none; otherwise execute the tool, append the assistant text
and the serialized tool output, and continue.  `fuel` is the number of
turns left. -/
def chatLoop (ai : List Msg → String × String) (wx : String → WeatherReply)
    (llm : List Msg → String × String) (now : Nat) (user : String) :
    Nat → LoopState → LoopOutcome
  | 0, st => .ceiling st
  | fuel + 1, st =>
    let aiMsg := (ai st.msgs).1
    let usedModel := (ai st.msgs).2
    match extract_json aiMsg with
    | none => .final aiMsg { st with usedModel := some usedModel }
    | some j =>
      match asObjMembers j with
      | none => .failed (attrGetErr j) { st with usedModel := some usedModel }
      | some o =>
        let nameV := dictGetD o "tool" .null
        let argsV := dictGetD o "arguments" (.obj [])
        match dispatchTool wx llm now nameV argsV user st.store with
        | .error e => .failed e { st with usedModel := some usedModel }
        | .ok (r, store') =>
          chatLoop ai wx llm now user fuel
            { msgs := st.msgs ++
                [⟨"assistant", aiMsg⟩,
                 ⟨"user", "Tool Output: " ++ jsonDump (toolResultJson r)⟩],
              store := store', action := true, lastTool := some nameV,
              usedModel := some usedModel, toolCalls := st.toolCalls + 1 }

/-- The canned reply returned at the turn ceiling. -/
def DONE_TEXT : String :=
  "Done! I\x27ve completed all the requested actions. Let me know if you need anything else!"

/-- The generic apology returned when the loop raises. -/
def APOLOGY_TEXT : String := "Sorry, I encountered an error. Please try again."

/-- The endpoint's turn ceiling. -/
def MAX_TURNS : Nat := 10

/-- The response body of the chat endpoint.  The apology path returns a
dict with only the `response` key; its other fields are `none` here. -/
structure EndpointReply where
  response : String
  action_performed : Option Bool
  tool : Option JsonValue
  model : Option String
deriving Repr, Inhabited

/-- The initial message list of a conversation: rendered system
instruction plus the new user message. -/
def initMessages (user message language : String) : List Msg :=
  [⟨"system", systemPrompt (get_tool_definitions TOOL_CATALOG) user language⟩,
   ⟨"user", message⟩]

/-- The loop state on entry to the first turn. -/
def initLoopState (user message language : String) (st : TaskStore) : LoopState :=
  { msgs := initMessages user message language, store := st, action := false,
    lastTool := none, usedModel := none, toolCalls := 0 }

/-- Model of `routes/chat.py: chat_endpoint`: persist the user message (committed
before the `try`), run the loop, persist the assistant message only on the
final-text path, and map the three loop outcomes onto the three response
shapes. -/
def chat_endpoint (ai : List Msg → String × String) (wx : String → WeatherReply)
    (llm : List Msg → String × String) (now : Nat) (user message language : String)
    (chat : List ChatMsg) (st : TaskStore) : EndpointReply × List ChatMsg × TaskStore :=
  let chat1 := chat ++ [⟨user, "user", message⟩]
  match chatLoop ai wx llm now user MAX_TURNS (initLoopState user message language st) with
  | .final text lst =>
    ({ response := text, action_performed := some lst.action, tool := lst.lastTool,
       model := lst.usedModel },
     chat1 ++ [⟨user, "assistant", text⟩], lst.store)
  | .ceiling lst =>
    ({ response := DONE_TEXT, action_performed := some true, tool := lst.lastTool,
       model := lst.usedModel },
     chat1, lst.store)
  | .failed _ lst =>
    ({ response := APOLOGY_TEXT, action_performed := none, tool := none, model := none },
     chat1, lst.store)

/-! ## Witness and counterexample fixtures -/

/-- Number of provider attempts in a trace. -/
def countAttempts (evs : List PEvent) : Nat :=
  (evs.filter (fun e => match e with | .att _ _ => true | .sleep _ => false)).length

/-- An input whose first fenced block holds valid JSON while its
```` ```json ````-labeled block does not: the code's `elif` never tries the
generic fence once the labeled marker is present. -/
def interpreterCexInput : String :=
  "``` \x7b\"a\": 1\x7d ``` ```json \x7b\"b\": \x7d ```"

/-- The provider response used to drive the loop into an executor
exception. -/
def aiBadTool : List Msg → String × String :=
  fun _ => ("\x7b\"tool\": \"nope\", \"arguments\": \x7b\x7d\x7d", "m")

/-- The provider oracle answering every turn with a `list_tasks` call. -/
def aiListTasks : List Msg → String × String :=
  fun _ => ("\x7b\"tool\": \"list_tasks\", \"arguments\": \x7b\x7d\x7d", "m")

/-- A foreign row in the store of the C4 witness. -/
def wTaskForeign : Task :=
  ⟨7, "v", .str "Other", .str "", .bool false, .str "low", .arr []⟩

/-- The C4 witness store before the call. -/
def wStore : TaskStore := ⟨[wTaskForeign], 8⟩

/-- The row the C4 witness call creates. -/
def wTaskNew : Task :=
  ⟨8, "u", .str "A", .str "", .bool false, .str "medium", .arr []⟩

/-- The C4 witness call's result envelope. -/
def wResult : ToolResult :=
  { status := "success",
    message := some "Task created: \x27A\x27 with medium priority (ID: 8)",
    tasks := [wTaskNew], extra := [] }

/-- The C4 witness store after the call. -/
def wStorePost : TaskStore := ⟨[wTaskForeign, wTaskNew], 9⟩

/-- Did the call raise (Python exception), as opposed to returning a
result envelope? -/
def exceptIsError : Except String (ToolResult × TaskStore) → Bool
  | .error _ => true
  | .ok _ => false

/-- The C8 witness store: rows 1 and 2 owned by "u", row 999 foreign. -/
def bStore : TaskStore :=
  ⟨[⟨1, "u", .str "Alpha", .str "", .bool false, .str "medium", .arr []⟩,
    ⟨2, "u", .str "Beta", .str "", .bool false, .str "high", .arr []⟩,
    ⟨999, "v", .str "Other", .str "", .bool false, .str "low", .arr []⟩], 1000⟩

/-- The nested response used for the C9 witness's success path. -/
def llmPlanGood : List Msg → String × String :=
  fun _ => ("```json\n[\x7b\"title\": \"Gym\", \"priority\": \"high\"\x7d]\n```", "m")

/-- The nested response used for the C9 witness's non-object path. -/
def llmPlanBad : List Msg → String × String :=
  fun _ => ("[1]", "m")

/-- The nested response used for the C9 witness's null-title path. -/
def llmPlanNull : List Msg → String × String :=
  fun _ => ("[\x7b\"title\": null\x7d]", "m")

/-! # Theorems

Gateway helper lemmas, then one theorem per claim (with witnesses and
counterexamples where the claim status requires them). -/

/-- A weather oracle used to instantiate witnesses. -/
def wxStub : String → WeatherReply :=
  fun _ => ⟨"error", some "Failed to fetch weather: timeout", []⟩

/-- A nested-gateway oracle used to instantiate witnesses. -/
def llmStub : List Msg → String × String := fun _ => ("[]", "fallback")

/-- If every attempt of a provider fails, its retry loop produces no
result. -/
lemma tryProvider_fst_none (f : Nat → Except String (String × String))
    (hf : ∀ n, ∃ e, f n = Except.error e) :
    ∀ (r a : Nat), (tryProvider f a r).1 = none := by
  intro r
  induction r with
  | zero => intro a; rfl
  | succ r ih =>
    intro a
    obtain ⟨e, he⟩ := hf a
    simp only [tryProvider, he]
    by_cases hrl : isRateLimited e
    · simp [hrl]
    · by_cases hr : (r == 0)
      · simp [hrl, hr]
      · simp [hrl, hr, ih]

/-- Events tagged by one provider never survive a filter for another. -/
lemma map_tag_filter_empty (tag other : String) (h : (tag == other) = false) :
    ∀ l : List PEvent,
      (l.map (fun e => (tag, e))).filter (fun p => p.1 == other) = [] := by
  intro l
  induction l with
  | nil => rfl
  | cons x xs ih => simp [List.filter_cons, h, ih]



/-- A provider that deterministically fails with a non-rate-limit error is
retried for the whole budget: no result, and as many attempts as the
budget allows. -/
lemma tryProvider_transient_burns_budget (f : Nat → Except String (String × String))
    (e : String) (hf : ∀ n, f n = Except.error e) (hrl : isRateLimited e = false) :
    ∀ (r a : Nat), (tryProvider f a r).1 = none
      ∧ countAttempts (tryProvider f a r).2 = r := by
  intro r
  induction r with
  | zero => intro a; exact ⟨rfl, rfl⟩
  | succ r ih =>
    intro a
    by_cases hr : (r == 0)
    · have hr0 : r = 0 := by simpa using hr
      subst hr0
      simp [tryProvider, hf a, hrl, countAttempts]
    · constructor
      · simp [tryProvider, hf a, hrl, hr, (ih (a + 1)).1]
      · have h2 := (ih (a + 1)).2
        simp [tryProvider, hf a, hrl, hr, countAttempts] at h2 ⊢
        omega

/-- C2.  For every message list (the oracles `f1`, `f2` abstract the
provider calls on the fixed message list), if all providers and all their
retries fail, the gateway returns the fixed degraded-service text paired
with the exact sentinel identifier "fallback" instead of raising, and that
text mentions no provider or model name. -/
theorem gateway_total_outage_fallback
    (f1 f2 : Nat → Except String (String × String)) (mr : Nat)
    (h1 : ∀ n, ∃ e, f1 n = Except.error e)
    (h2 : ∀ n, ∃ e, f2 n = Except.error e) :
    (dual_provider_chat f1 f2 mr).1 = (DEGRADED_TEXT, "fallback")
    ∧ pyIn "openrouter" (pyLower DEGRADED_TEXT) = false
    ∧ pyIn "gemini" (pyLower DEGRADED_TEXT) = false
    ∧ pyIn "llama" (pyLower DEGRADED_TEXT) = false
    ∧ pyIn "mistral" (pyLower DEGRADED_TEXT) = false
    ∧ pyIn "gpt" (pyLower DEGRADED_TEXT) = false := by
  refine ⟨?_, by decide, by decide, by decide, by decide, by decide⟩
  have hf1 : tryProvider f1 0 mr = (none, (tryProvider f1 0 mr).2) := by
    have := tryProvider_fst_none f1 h1 mr 0
    exact Prod.ext this rfl
  have hf2 : tryProvider f2 0 mr = (none, (tryProvider f2 0 mr).2) := by
    have := tryProvider_fst_none f2 h2 mr 0
    exact Prod.ext this rfl
  rw [dual_provider_chat, hf1, hf2]

/-- C2 witness at concrete always-failing providers. -/
theorem gateway_total_outage_fallback_witness :
    (dual_provider_chat (fun _ => Except.error "boom") (fun _ => Except.error "crash") 2).1
      = (DEGRADED_TEXT, "fallback") :=
  (gateway_total_outage_fallback (fun _ => Except.error "boom")
    (fun _ => Except.error "crash") 2 (fun _ => ⟨"boom", rfl⟩) (fun _ => ⟨"crash", rfl⟩)).1

/-- C5.  A rate-limited error (text containing "429", or "rate"/"quota"
case-insensitively) breaks out of the provider's retry loop right away —
one attempt, no sleep, not the full retry count of 2 — and the gateway
falls through to the next provider; a non-rate-limit error instead sleeps
`attempt + 1` seconds (linear backoff, 1 × 1-based attempt number) and
retries the same provider. -/
theorem gateway_rate_limit_break
    (f1 f2 : Nat → Except String (String × String)) (e : String)
    (hrl : isRateLimited e = true) (h0 : f1 0 = Except.error e) :
    tryProvider f1 0 2 = (none, [PEvent.att 0 false])
    ∧ ((dual_provider_chat f1 f2 2).2.filter (fun p => p.1 == "OpenRouter"))
        = [("OpenRouter", PEvent.att 0 false)]
    ∧ (∀ res, (tryProvider f2 0 2).1 = some res → (dual_provider_chat f1 f2 2).1 = res)
    ∧ (∀ (f : Nat → Except String (String × String)) (i r : Nat) (e' : String),
        f i = Except.error e' → isRateLimited e' = true →
        tryProvider f i (r + 1) = (none, [PEvent.att i false]))
    ∧ (∀ (f : Nat → Except String (String × String)) (i r : Nat) (e' : String),
        f i = Except.error e' → isRateLimited e' = false →
        tryProvider f i (r + 2)
          = ((tryProvider f (i + 1) (r + 1)).1,
             PEvent.att i false :: PEvent.sleep (i + 1) :: (tryProvider f (i + 1) (r + 1)).2)) := by
  have hbreak : tryProvider f1 0 2 = (none, [PEvent.att 0 false]) := by
    simp [tryProvider, h0, hrl]
  refine ⟨hbreak, ?_, ?_, ?_, ?_⟩
  · rcases htp : tryProvider f2 0 2 with ⟨res2, evs2⟩
    cases res2 with
    | none =>
      simp [dual_provider_chat, hbreak, htp, List.filter_cons,
        map_tag_filter_empty "Gemini" "OpenRouter" (by decide) evs2]
    | some r2 =>
      simp [dual_provider_chat, hbreak, htp, List.filter_cons,
        map_tag_filter_empty "Gemini" "OpenRouter" (by decide) evs2]
  · intro res hres
    rcases htp : tryProvider f2 0 2 with ⟨res2, evs2⟩
    rw [htp] at hres
    simp at hres
    subst hres
    simp [dual_provider_chat, hbreak, htp]
  · intro f i r e' hfi hrl'
    simp [tryProvider, hfi, hrl']
  · intro f i r e' hfi hrl'
    simp [tryProvider, hfi, hrl']

/-- C5 witness: a 429 error on the primary's first attempt, healthy
secondary. -/
theorem gateway_rate_limit_break_witness :
    tryProvider (fun _ => Except.error "HTTP 429 Too Many Requests") 0 2
      = (none, [PEvent.att 0 false])
    ∧ (dual_provider_chat (fun _ => Except.error "HTTP 429 Too Many Requests")
        (fun _ => Except.ok ("hello", "gemini/1.5-flash")) 2).1
      = ("hello", "gemini/1.5-flash") := by
  have h := gateway_rate_limit_break
    (fun _ => Except.error "HTTP 429 Too Many Requests")
    (fun _ => Except.ok ("hello", "gemini/1.5-flash"))
    "HTTP 429 Too Many Requests" (by decide) rfl
  exact ⟨h.1, h.2.2.1 ("hello", "gemini/1.5-flash") rfl⟩

/-- C6 counterexample.  An unconfigured provider raises
"OpenRouter not configured" — which is not a rate-limit signal — and the
gateway then burns the full retry budget on it (two attempts and a backoff
sleep), instead of short-circuiting after one attempt as the claim states. -/
theorem gateway_unconfigured_cex :
    call_openrouter false (fun _ => Except.ok "hello") = Except.error "OpenRouter not configured"
    ∧ call_gemini false (Except.ok "hello") = Except.error "Gemini not configured"
    ∧ isRateLimited "OpenRouter not configured" = false
    ∧ tryProvider (fun _ => call_openrouter false (fun _ => Except.ok "hello")) 0 2
        = (none, [PEvent.att 0 false, PEvent.sleep 1, PEvent.att 1 false]) :=
  ⟨rfl, rfl, by decide, rfl⟩

/-- C6 amended.  A provider unavailable for lack of credentials raises
"<Provider> not configured"; that error does not match the rate-limit
tokens, so the gateway treats it like any other transient error — it
retries the provider for the whole configured budget (with backoff) before
moving on to the next provider; only rate-limit errors short-circuit. -/
theorem gateway_unconfigured_retries
    (api : String → Except String String) (g : Except String String)
    (f2 : Nat → Except String (String × String)) :
    call_openrouter false api = Except.error "OpenRouter not configured"
    ∧ call_gemini false g = Except.error "Gemini not configured"
    ∧ isRateLimited "OpenRouter not configured" = false
    ∧ (∀ n, (tryProvider (fun _ => call_openrouter false api) 0 n).1 = none
        ∧ countAttempts (tryProvider (fun _ => call_openrouter false api) 0 n).2 = n)
    ∧ (∀ res, (tryProvider f2 0 2).1 = some res →
        (dual_provider_chat (fun _ => call_openrouter false api) f2 2).1 = res) := by
  have hco : call_openrouter false api = Except.error "OpenRouter not configured" := rfl
  have hburn := tryProvider_transient_burns_budget
    (fun _ => call_openrouter false api) "OpenRouter not configured"
    (fun _ => hco) (by decide)
  refine ⟨rfl, rfl, by decide, fun n => hburn n 0, ?_⟩
  intro res hres
  rcases h1 : tryProvider (fun _ => call_openrouter false api) 0 2 with ⟨r1, evs1⟩
  have hr1 : r1 = none := by
    have hn := (hburn 2 0).1
    rw [h1] at hn
    exact hn
  subst hr1
  rcases htp : tryProvider f2 0 2 with ⟨res2, evs2⟩
  rw [htp] at hres
  simp at hres
  subst hres
  simp [dual_provider_chat, h1, htp]

/-- C6 amended, instantiated: concrete unconfigured primary and healthy
secondary. -/
theorem gateway_unconfigured_retries_witness :
    countAttempts (tryProvider
      (fun _ => call_openrouter false (fun _ => Except.ok "hello")) 0 2).2 = 2
    ∧ (dual_provider_chat (fun _ => call_openrouter false (fun _ => Except.ok "hello"))
        (fun _ => Except.ok ("hi", "gemini/1.5-flash")) 2).1 = ("hi", "gemini/1.5-flash") := by
  have h := gateway_unconfigured_retries (fun _ => Except.ok "hello")
    (Except.ok "hello") (fun _ => Except.ok ("hi", "gemini/1.5-flash"))
  exact ⟨(h.2.2.2.1 2).2, h.2.2.2.2 ("hi", "gemini/1.5-flash") rfl⟩

/-! ## C3: the interpreter cascade -/

/-- Containment is monotone under prefixes of the needle. -/
lemma containsSub_of_prefix (n2 n1 : List Char) (hp : n2 <+: n1) :
    ∀ hay, containsSub hay n1 = true → containsSub hay n2 = true := by
  intro hay
  induction hay with
  | nil =>
    intro h
    simp only [containsSub, List.isEmpty_iff] at h ⊢
    subst h
    exact List.prefix_nil.mp hp
  | cons c rest ih =>
    intro h
    simp only [containsSub, Bool.or_eq_true] at h ⊢
    rcases h with h | h
    · left
      have h1 : n1 <+: c :: rest := List.isPrefixOf_iff_prefix.mp h
      exact List.isPrefixOf_iff_prefix.mpr (hp.trans h1)
    · right; exact ih h

/-- A text containing the labeled marker contains a bare fence. -/
lemma pyIn_fence_of_fence_json (t : String) (h : pyIn "```json" t = true) :
    pyIn "```" t = true :=
  containsSub_of_prefix ("```".toList) ("```json".toList)
    ( List.isPrefixOf_iff_prefix.mp (by decide)) t.toList h

/-- The endpoint's response on the final-text outcome. -/
lemma chat_endpoint_eq_final (ai : List Msg → String × String) (wx : String → WeatherReply)
    (llm : List Msg → String × String) (now : Nat)
    (user message language : String) (chat : List ChatMsg) (st : TaskStore)
    (text : String) (lst : LoopState)
    (hout : chatLoop ai wx llm now user MAX_TURNS (initLoopState user message language st)
      = LoopOutcome.final text lst) :
    chat_endpoint ai wx llm now user message language chat st
      = ({ response := text, action_performed := some lst.action, tool := lst.lastTool,
           model := lst.usedModel },
         (chat ++ [⟨user, "user", message⟩]) ++ [⟨user, "assistant", text⟩], lst.store) := by
  unfold chat_endpoint
  rw [hout]

/-- The endpoint's response on the ceiling outcome. -/
lemma chat_endpoint_eq_ceiling (ai : List Msg → String × String) (wx : String → WeatherReply)
    (llm : List Msg → String × String) (now : Nat)
    (user message language : String) (chat : List ChatMsg) (st : TaskStore)
    (lst : LoopState)
    (hout : chatLoop ai wx llm now user MAX_TURNS (initLoopState user message language st)
      = LoopOutcome.ceiling lst) :
    chat_endpoint ai wx llm now user message language chat st
      = ({ response := DONE_TEXT, action_performed := some true, tool := lst.lastTool,
           model := lst.usedModel },
         chat ++ [⟨user, "user", message⟩], lst.store) := by
  unfold chat_endpoint
  rw [hout]

/-- The endpoint's response on the exception outcome. -/
lemma chat_endpoint_eq_failed (ai : List Msg → String × String) (wx : String → WeatherReply)
    (llm : List Msg → String × String) (now : Nat)
    (user message language : String) (chat : List ChatMsg) (st : TaskStore)
    (e : String) (lst : LoopState)
    (hout : chatLoop ai wx llm now user MAX_TURNS (initLoopState user message language st)
      = LoopOutcome.failed e lst) :
    chat_endpoint ai wx llm now user message language chat st
      = ({ response := APOLOGY_TEXT, action_performed := none, tool := none, model := none },
         chat ++ [⟨user, "user", message⟩], lst.store) := by
  unfold chat_endpoint
  rw [hout]



/-- C3 counterexample.  On `interpreterCexInput`, step 3 of the claimed
cascade (parse the inner content of any fenced block) would succeed — the
spec-worded cascade returns the object — yet `extract_json` returns
nothing, because after the failed ```` ```json ```` parse it skips the
generic-fence step and the greedy regex span does not parse either.  So
the interpreter does not attempt the four steps "in order, stopping at the
first success". -/
theorem interpreter_cascade_cex :
    json_loads (fenceAnyBlock interpreterCexInput)
      = some (JsonValue.obj [("a", JsonValue.num 1)])
    ∧ extract_json_spec interpreterCexInput
      = some (JsonValue.obj [("a", JsonValue.num 1)])
    ∧ extract_json interpreterCexInput = none :=
  ⟨rfl, rfl, rfl⟩

/-- One final-text step of the loop. -/
lemma chatLoop_final_step (ai : List Msg → String × String) (wx : String → WeatherReply)
    (llm : List Msg → String × String) (now : Nat) (user : String) (fuel : Nat)
    (st : LoopState) (h : extract_json ((ai st.msgs).1) = none) :
    chatLoop ai wx llm now user (fuel + 1) st
      = .final ((ai st.msgs).1) { st with usedModel := some ((ai st.msgs).2) } := by
  simp [chatLoop, h]

/-- C3 amended.  The interpreter tries: (1) the whole text as JSON; (2) if
a ```` ```json ```` marker is present, only that block — on failure it
skips the generic-fence step and goes straight to the regex span; (2')
otherwise, if any fence is present, the first fenced block; (3) the greedy
outermost brace span; if everything fails it returns nothing, and the loop
then returns the provider's prose as the final answer on turn 1 with
`action_performed` false. -/
theorem interpreter_cascade_amended
    (t : String) (ai : List Msg → String × String) (wx : String → WeatherReply)
    (llm : List Msg → String × String) (now : Nat)
    (user message language : String) (chat : List ChatMsg) (st : TaskStore)
    (ht : json_loads t = none)
    (hprose : extract_json ((ai (initMessages user message language)).1) = none) :
    (pyIn "```json" t = true →
      extract_json t = (match json_loads (fenceJsonBlock t) with
        | some v => some v
        | none => (match braceSpan t with
          | some span => json_loads span
          | none => none)))
    ∧ (pyIn "```json" t = false → pyIn "```" t = true →
      extract_json t = (match json_loads (fenceAnyBlock t) with
        | some v => some v
        | none => (match braceSpan t with
          | some span => json_loads span
          | none => none)))
    ∧ (pyIn "```" t = false →
      extract_json t = (match braceSpan t with
        | some span => json_loads span
        | none => none))
    ∧ ((chat_endpoint ai wx llm now user message language chat st).1.response
         = (ai (initMessages user message language)).1
       ∧ (chat_endpoint ai wx llm now user message language chat st).1.action_performed
         = some false
       ∧ (chat_endpoint ai wx llm now user message language chat st).2.1
         = chat ++ [⟨user, "user", message⟩,
             ⟨user, "assistant", (ai (initMessages user message language)).1⟩]) := by
  have hjson : ∀ (hj : pyIn "```json" t = true),
      extract_json t = (match json_loads (fenceJsonBlock t) with
        | some v => some v
        | none => (match braceSpan t with
          | some span => json_loads span
          | none => none)) := by
    intro hj
    simp only [extract_json, ht, hj, if_true]
  have hany : ∀ (hnj : pyIn "```json" t = false) (hf : pyIn "```" t = true),
      extract_json t = (match json_loads (fenceAnyBlock t) with
        | some v => some v
        | none => (match braceSpan t with
          | some span => json_loads span
          | none => none)) := by
    intro hnj hf
    simp only [extract_json, ht, hnj, hf, if_true, Bool.false_eq_true, if_false]
  have hnone : ∀ (hf : pyIn "```" t = false),
      extract_json t = (match braceSpan t with
        | some span => json_loads span
        | none => none) := by
    intro hf
    have hnj : pyIn "```json" t = false := by
      by_contra hc
      have hc' : pyIn "```json" t = true := by
        cases h : pyIn "```json" t
        · exact absurd h hc
        · rfl
      have : pyIn "```" t = true := pyIn_fence_of_fence_json t hc'
      rw [this] at hf
      exact absurd hf (by simp)
    simp only [extract_json, ht, hnj, hf, Bool.false_eq_true, if_false]
  refine ⟨hjson, hany, hnone, ?_⟩
  have hstep := chatLoop_final_step ai wx llm now user 9
    (initLoopState user message language st) hprose
  have hout : chatLoop ai wx llm now user MAX_TURNS (initLoopState user message language st)
      = .final ((ai (initMessages user message language)).1)
        { initLoopState user message language st
            with usedModel := some ((ai (initMessages user message language)).2) } := hstep
  have hep := chat_endpoint_eq_final ai wx llm now user message language chat st _ _ hout
  refine ⟨?_, ?_, ?_⟩
  · rw [hep]
  · rw [hep]
    rfl
  · rw [hep]
    simp

/-- C3 amended witness: the spec's own test vector for the labeled-fence
path, and a prose-only conversation ending on turn 1. -/
theorem interpreter_cascade_amended_witness :
    extract_json "Sure! ```json\n\x7b\"tool\":\"add_task\",\"arguments\":\x7b\"title\":\"Buy milk\"\x7d\x7d\n```"
      = some (JsonValue.obj [("tool", JsonValue.str "add_task"),
          ("arguments", JsonValue.obj [("title", JsonValue.str "Buy milk")])])
    ∧ (chat_endpoint (fun _ => ("Hello there!", "m")) wxStub llmStub 0 "u" "hi" "en"
        [] ⟨[], 1⟩).1.response = "Hello there!"
    ∧ (chat_endpoint (fun _ => ("Hello there!", "m")) wxStub llmStub 0 "u" "hi" "en"
        [] ⟨[], 1⟩).1.action_performed = some false := by
  have h := interpreter_cascade_amended
    "Sure! ```json\n\x7b\"tool\":\"add_task\",\"arguments\":\x7b\"title\":\"Buy milk\"\x7d\x7d\n```"
    (fun _ => ("Hello there!", "m")) wxStub llmStub 0 "u" "hi" "en" [] ⟨[], 1⟩
    rfl rfl
  exact ⟨(h.1 rfl).trans rfl, h.2.2.2.1, h.2.2.2.2.1⟩

/-! ## C10: persistence of chat messages across outcomes -/

/-- C10.  The incoming user message is appended to the persisted history
before the loop runs and survives every outcome; when the loop dies with
an uncaught exception, the endpoint answers the generic apology (a body
with only the `response` key) and persists no assistant message for the
request. -/
theorem chat_persistence_on_outcomes
    (ai : List Msg → String × String) (wx : String → WeatherReply)
    (llm : List Msg → String × String) (now : Nat)
    (user message language : String) (chat : List ChatMsg) (st : TaskStore) :
    (∃ rest, (chat_endpoint ai wx llm now user message language chat st).2.1
        = chat ++ ⟨user, "user", message⟩ :: rest)
    ∧ (∀ e lst,
        chatLoop ai wx llm now user MAX_TURNS (initLoopState user message language st)
          = LoopOutcome.failed e lst →
        (chat_endpoint ai wx llm now user message language chat st).1
          = ⟨APOLOGY_TEXT, none, none, none⟩
        ∧ (chat_endpoint ai wx llm now user message language chat st).2.1
          = chat ++ [⟨user, "user", message⟩]) := by
  constructor
  · cases hout : chatLoop ai wx llm now user MAX_TURNS (initLoopState user message language st) with
    | final text lst =>
      refine ⟨[⟨user, "assistant", text⟩], ?_⟩
      rw [chat_endpoint_eq_final ai wx llm now user message language chat st text lst hout]
      simp
    | ceiling lst =>
      refine ⟨[], ?_⟩
      rw [chat_endpoint_eq_ceiling ai wx llm now user message language chat st lst hout]
    | failed e lst =>
      refine ⟨[], ?_⟩
      rw [chat_endpoint_eq_failed ai wx llm now user message language chat st e lst hout]
  · intro e lst hout
    rw [chat_endpoint_eq_failed ai wx llm now user message language chat st e lst hout]
    exact ⟨rfl, rfl⟩



/-- C10 witness: a hallucinated tool name raises inside the loop; the user
message stays persisted, the reply is the apology, and no assistant row is
written. -/
theorem chat_persistence_on_outcomes_witness :
    (chat_endpoint aiBadTool wxStub llmStub 0 "u" "hi" "en" [] ⟨[], 1⟩).1
      = ⟨APOLOGY_TEXT, none, none, none⟩
    ∧ (chat_endpoint aiBadTool wxStub llmStub 0 "u" "hi" "en" [] ⟨[], 1⟩).2.1
      = [⟨"u", "user", "hi"⟩] := by
  have h := (chat_persistence_on_outcomes aiBadTool wxStub llmStub 0 "u" "hi" "en" [] ⟨[], 1⟩).2
    "Tool not found: nope"
    { initLoopState "u" "hi" "en" ⟨[], 1⟩ with usedModel := some "m" } rfl
  exact ⟨h.1, by simpa using h.2⟩

/-! ## C1: the turn ceiling -/

/-- With every response parsing to an executable tool call, each turn
consumes one unit of fuel and performs exactly one tool call, and the loop
can only end at the ceiling. -/
lemma chatLoop_ceiling_of_all_tools (ai : List Msg → String × String)
    (wx : String → WeatherReply) (llm : List Msg → String × String) (now : Nat)
    (user : String)
    (hparse : ∀ ms : List Msg, ∃ o, extract_json ((ai ms).1) = some (JsonValue.obj o))
    (hexec : ∀ (ms : List Msg) (o : List (String × JsonValue)) (σ : TaskStore),
      extract_json ((ai ms).1) = some (JsonValue.obj o) →
      ∃ r σ', dispatchTool wx llm now (dictGetD o "tool" JsonValue.null)
          (dictGetD o "arguments" (JsonValue.obj [])) user σ = Except.ok (r, σ')) :
    ∀ (fuel : Nat) (s : LoopState),
      ∃ lst, chatLoop ai wx llm now user fuel s = LoopOutcome.ceiling lst
        ∧ lst.toolCalls = s.toolCalls + fuel := by
  intro fuel
  induction fuel with
  | zero => intro s; exact ⟨s, rfl, by omega⟩
  | succ fuel ih =>
    intro s
    obtain ⟨o, ho⟩ := hparse s.msgs
    obtain ⟨r, σ', hd⟩ := hexec s.msgs o s.store ho
    obtain ⟨lst, hl, hc⟩ := ih
      { msgs := s.msgs ++
          [⟨"assistant", (ai s.msgs).1⟩,
           ⟨"user", "Tool Output: " ++ jsonDump (toolResultJson r)⟩],
        store := σ', action := true,
        lastTool := some (dictGetD o "tool" JsonValue.null),
        usedModel := some (ai s.msgs).2, toolCalls := s.toolCalls + 1 }
    refine ⟨lst, ?_, ?_⟩
    · simp only [chatLoop, ho, asObjMembers, hd]
      exact hl
    · rw [hc]
      show s.toolCalls + 1 + fuel = s.toolCalls + (fuel + 1)
      omega

/-- C1.  `MAX_TURNS` is 10; when every provider response parses to a valid
JSON tool invocation, the loop executes exactly one tool call per unit of
fuel, can only end at the ceiling, and the endpoint then returns the
canned completion message with `action_performed` true; the full run
performs exactly 10 tool calls. -/
theorem chat_loop_ceiling_soft_success (ai : List Msg → String × String)
    (wx : String → WeatherReply) (llm : List Msg → String × String) (now : Nat)
    (user message language : String) (chat : List ChatMsg) (st : TaskStore)
    (hparse : ∀ ms : List Msg, ∃ o, extract_json ((ai ms).1) = some (JsonValue.obj o))
    (hexec : ∀ (ms : List Msg) (o : List (String × JsonValue)) (σ : TaskStore),
      extract_json ((ai ms).1) = some (JsonValue.obj o) →
      ∃ r σ', dispatchTool wx llm now (dictGetD o "tool" JsonValue.null)
          (dictGetD o "arguments" (JsonValue.obj [])) user σ = Except.ok (r, σ')) :
    MAX_TURNS = 10
    ∧ (∀ (fuel : Nat) (s : LoopState),
        ∃ lst, chatLoop ai wx llm now user fuel s = LoopOutcome.ceiling lst
          ∧ lst.toolCalls = s.toolCalls + fuel)
    ∧ (chat_endpoint ai wx llm now user message language chat st).1.response = DONE_TEXT
    ∧ (chat_endpoint ai wx llm now user message language chat st).1.action_performed
        = some true
    ∧ (∃ lst, chatLoop ai wx llm now user MAX_TURNS (initLoopState user message language st)
        = LoopOutcome.ceiling lst ∧ lst.toolCalls = 10) := by
  have main := chatLoop_ceiling_of_all_tools ai wx llm now user hparse hexec
  obtain ⟨lst, hl, hc⟩ := main MAX_TURNS (initLoopState user message language st)
  have hc10 : lst.toolCalls = 10 := by
    rw [hc]
    rfl
  have hep := chat_endpoint_eq_ceiling ai wx llm now user message language chat st lst hl
  refine ⟨rfl, main, ?_, ?_, lst, hl, hc10⟩
  · rw [hep]
  · rw [hep]



/-- Model of `list_tasks` never raises and never changes the store. -/
lemma listTasksH_ok (args : List (String × JsonValue)) (user : String) (st : TaskStore) :
    ∃ r, listTasksH args user st = Except.ok (r, st) := by
  simp only [listTasksH]
  repeat' split
  all_goals exact ⟨_, rfl⟩

/-- C1 witness: ten turns of `list_tasks` end at the ceiling with the
canned message and `action_performed` true. -/
theorem chat_loop_ceiling_soft_success_witness :
    (chat_endpoint aiListTasks wxStub llmStub 0 "u" "hi" "en" [] ⟨[], 1⟩).1.response = DONE_TEXT
    ∧ (chat_endpoint aiListTasks wxStub llmStub 0 "u" "hi" "en" [] ⟨[], 1⟩).1.action_performed
        = some true := by
  have hparse : ∀ ms : List Msg,
      ∃ o, extract_json ((aiListTasks ms).1) = some (JsonValue.obj o) :=
    fun _ => ⟨[("tool", JsonValue.str "list_tasks"), ("arguments", JsonValue.obj [])], rfl⟩
  have hexec : ∀ (ms : List Msg) (o : List (String × JsonValue)) (σ : TaskStore),
      extract_json ((aiListTasks ms).1) = some (JsonValue.obj o) →
      ∃ r σ', dispatchTool wxStub llmStub 0 (dictGetD o "tool" JsonValue.null)
          (dictGetD o "arguments" (JsonValue.obj [])) "u" σ = Except.ok (r, σ') := by
    intro ms o σ h
    have hconc : extract_json ((aiListTasks ms).1)
        = some (JsonValue.obj [("tool", JsonValue.str "list_tasks"),
            ("arguments", JsonValue.obj [])]) := rfl
    have h2 := Option.some.inj (h.symm.trans hconc)
    have ho : o = [("tool", JsonValue.str "list_tasks"), ("arguments", JsonValue.obj [])] := by
      injection h2
    subst ho
    obtain ⟨r, hr⟩ := listTasksH_ok [] "u" σ
    exact ⟨r, σ, hr⟩
  have h := chat_loop_ceiling_soft_success aiListTasks wxStub llmStub 0 "u" "hi" "en"
    [] ⟨[], 1⟩ hparse hexec
  exact ⟨h.2.2.1, h.2.2.2.1⟩

/-! ## C4: user scoping of the tool executor -/

/-- Replacing the row `find?` located — when it is owned by `u` and the
replacement keeps the owner — does not disturb other users' rows. -/
lemma filter_replaceFirst_of_found (p : Task → Bool) (f : Task → Task) (u : String)
    (hfu : ∀ x, (f x).user_id = x.user_id) :
    ∀ (l : List Task) (t : Task), l.find? p = some t → t.user_id = u →
      (replaceFirst p f l).filter (fun x => x.user_id != u)
        = l.filter (fun x => x.user_id != u) := by
  intro l
  induction l with
  | nil => intro t h _; simp at h
  | cons a l ih =>
    intro t h htu
    by_cases hp : p a
    · have ha : a = t := by
        rw [List.find?_cons_of_pos _ hp] at h
        exact Option.some.inj h
      subst ha
      have h1 : (a.user_id != u) = false := by simp [htu]
      have h2 : ((f a).user_id != u) = false := by rw [bne, hfu]; simpa [bne] using h1
      simp [replaceFirst, hp, List.filter_cons, h1, h2]
    · have hp' : p a = false := by simpa using hp
      have hfind : l.find? p = some t := by
        rw [List.find?_cons_of_neg _ hp] at h
        exact h
      simp only [replaceFirst, hp', Bool.false_eq_true, if_false, List.filter_cons]
      rw [ih t hfind htu]

/-- Removing the row `find?` located — when it is owned by `u` — does not
disturb other users' rows. -/
lemma filter_removeFirst_of_found (p : Task → Bool) (u : String) :
    ∀ (l : List Task) (t : Task), l.find? p = some t → t.user_id = u →
      (removeFirst p l).filter (fun x => x.user_id != u)
        = l.filter (fun x => x.user_id != u) := by
  intro l
  induction l with
  | nil => intro t h _; simp at h
  | cons a l ih =>
    intro t h htu
    by_cases hp : p a
    · have ha : a = t := by
        rw [List.find?_cons_of_pos _ hp] at h
        exact Option.some.inj h
      subst ha
      have h1 : (a.user_id != u) = false := by simp [htu]
      simp [removeFirst, hp, List.filter_cons, h1]
    · have hp' : p a = false := by simpa using hp
      have hfind : l.find? p = some t := by
        rw [List.find?_cons_of_neg _ hp] at h
        exact h
      simp only [removeFirst, hp', Bool.false_eq_true, if_false, List.filter_cons]
      rw [ih t hfind htu]

/-- A map that fixes every row not owned by `u` and never changes owners
does not disturb other users' rows. -/
lemma filter_map_guard (g : Task → Task) (u : String)
    (hgu : ∀ x, (g x).user_id = x.user_id) (hid : ∀ x, x.user_id ≠ u → g x = x) :
    ∀ l : List Task,
      (l.map g).filter (fun x => x.user_id != u) = l.filter (fun x => x.user_id != u) := by
  intro l
  induction l with
  | nil => rfl
  | cons a l ih =>
    by_cases ha : a.user_id = u
    · have h1 : (a.user_id != u) = false := by simp [ha]
      have h2 : ((g a).user_id != u) = false := by rw [bne, hgu]; simpa [bne] using h1
      simp [List.filter_cons, h1, h2, ih]
    · have h3 : g a = a := hid a ha
      simp [List.filter_cons, h3, ih]

/-- A filter that keeps every row not owned by `u` does not disturb other
users' rows. -/
lemma filter_filter_keep (keep : Task → Bool) (u : String)
    (hk : ∀ x, x.user_id ≠ u → keep x = true) :
    ∀ l : List Task,
      (l.filter keep).filter (fun x => x.user_id != u) = l.filter (fun x => x.user_id != u) := by
  intro l
  induction l with
  | nil => rfl
  | cons a l ih =>
    by_cases hka : keep a = true
    · simp [List.filter_cons, hka, ih]
    · have ha : a.user_id = u := by
        by_contra hne
        exact hka (hk a hne)
      have h1 : (a.user_id != u) = false := by simp [ha]
      simp [List.filter_cons, hka, h1, ih]

/-- Every task the planner creates carries the authenticated user id. -/
lemma planTasks_user (u : String) :
    ∀ (objs : List (List (String × JsonValue))) (i : Int),
      ∀ t ∈ planTasks u i objs, t.user_id = u := by
  intro objs
  induction objs with
  | nil => intro i t ht; simp [planTasks] at ht
  | cons o objs ih =>
    intro i t ht
    simp only [planTasks, List.mem_cons] at ht
    rcases ht with ht | ht
    · subst ht; rfl
    · exact ih (i + 1) t ht

/-- New planner rows vanish from the other-users filter. -/
lemma planTasks_filter_other (u : String) (objs : List (List (String × JsonValue))) (i : Int) :
    (planTasks u i objs).filter (fun x => x.user_id != u) = [] := by
  rw [List.filter_eq_nil_iff]
  intro t ht
  simp [planTasks_user u objs i t ht]

/-- The limit clause only selects among the filtered rows. -/
lemma mem_limit_take (limit : JsonValue) (l : List Task) :
    ∀ t ∈ (match limit with
      | JsonValue.num n => if n < 0 then l else l.take n.toNat
      | _ => l), t ∈ l := by
  intro t ht
  rcases limit with _ | _ | n | _ | _ | _ | _
  case num =>
    dsimp only at ht
    by_cases hn : n < 0
    · rw [if_pos hn] at ht; exact ht
    · rw [if_neg hn] at ht; exact List.take_subset _ _ ht
  all_goals exact ht

/-- The status clause only selects among the owned rows. -/
lemma mem_status_filter (status : JsonValue) (owned : List Task) :
    ∀ t ∈ (if status == JsonValue.str "pending" then
        owned.filter (fun x => x.completed == JsonValue.bool false)
      else if status == JsonValue.str "completed" then
        owned.filter (fun x => x.completed == JsonValue.bool true)
      else owned), t ∈ owned := by
  intro t ht
  split at ht
  · exact (List.mem_filter.mp ht).1
  · split at ht
    · exact (List.mem_filter.mp ht).1
    · exact ht

/-- Every row `list_tasks` selects is owned by the querying user. -/
lemma listSelect_owned (args : List (String × JsonValue)) (u : String) (st : TaskStore) :
    ∀ t ∈ listSelect args u st, t.user_id = u := by
  intro t ht
  simp only [listSelect] at ht
  have ht2 := mem_limit_take _ _ t ht
  have ht3 := mem_status_filter _ _ t ht2
  have := (List.mem_filter.mp ht3).2
  simpa using this

/-- Model of `add_task` touches no other user's rows and dumps only an owned row. -/
lemma addTaskH_scoped (args : List (String × JsonValue)) (u : String) (st : TaskStore)
    (r : ToolResult) (st' : TaskStore) (h : addTaskH args u st = Except.ok (r, st')) :
    st'.tasks.filter (fun x => x.user_id != u) = st.tasks.filter (fun x => x.user_id != u)
    ∧ ∀ t ∈ r.tasks, t.user_id = u := by
  simp only [addTaskH] at h
  split at h
  · exact absurd h (by simp)
  · simp only [Except.ok.injEq, Prod.mk.injEq] at h
    obtain ⟨h1, h2⟩ := h
    subst h1
    subst h2
    constructor
    · simp [List.filter_append]
    · intro t ht
      simp only [List.mem_singleton] at ht
      subst ht
      rfl

/-- Model of `list_tasks` reads only owned rows and never writes. -/
lemma listTasksH_scoped (args : List (String × JsonValue)) (u : String) (st : TaskStore)
    (r : ToolResult) (st' : TaskStore) (h : listTasksH args u st = Except.ok (r, st')) :
    st' = st ∧ ∀ t ∈ r.tasks, t.user_id = u := by
  simp only [listTasksH] at h
  split at h
  · simp only [Except.ok.injEq, Prod.mk.injEq] at h
    obtain ⟨h1, h2⟩ := h
    subst h1
    subst h2
    exact ⟨rfl, by intro t ht; simp at ht⟩
  · simp only [Except.ok.injEq, Prod.mk.injEq] at h
    obtain ⟨h1, h2⟩ := h
    subst h1
    subst h2
    exact ⟨rfl, listSelect_owned args u st⟩

/-- Model of `complete_task` mutates only the owned row it found. -/
lemma completeTaskH_scoped (args : List (String × JsonValue)) (u : String) (st : TaskStore)
    (r : ToolResult) (st' : TaskStore) (h : completeTaskH args u st = Except.ok (r, st')) :
    st'.tasks.filter (fun x => x.user_id != u) = st.tasks.filter (fun x => x.user_id != u)
    ∧ ∀ t ∈ r.tasks, t.user_id = u := by
  rcases hget : sessionGet st (dictGetD args "task_id" JsonValue.null) with _ | t
  · simp only [completeTaskH, hget] at h
    simp only [Except.ok.injEq, Prod.mk.injEq] at h
    obtain ⟨h1, h2⟩ := h
    subst h1
    subst h2
    exact ⟨rfl, by intro x hx; simp [errResult] at hx⟩
  · by_cases hown : (t.user_id != u) = true
    · simp only [completeTaskH, hget, hown, if_true] at h
      simp only [Except.ok.injEq, Prod.mk.injEq] at h
      obtain ⟨h1, h2⟩ := h
      subst h1
      subst h2
      exact ⟨rfl, by intro x hx; simp [errResult] at hx⟩
    · have hown' : (t.user_id != u) = false := by simpa using hown
      have htu : t.user_id = u := by simpa using hown'
      by_cases hnull : (dictGetD args "completed" (JsonValue.bool true) == JsonValue.null) = true
      · simp only [completeTaskH, hget, hown', hnull] at h
        simp at h
      · have hnull' : (dictGetD args "completed" (JsonValue.bool true) == JsonValue.null)
            = false := by simpa using hnull
        simp only [completeTaskH, hget, hown', hnull', Bool.false_eq_true, if_false] at h
        simp only [Except.ok.injEq, Prod.mk.injEq] at h
        obtain ⟨h1, h2⟩ := h
        subst h1
        subst h2
        refine ⟨?_, by intro x hx; simp [okResult] at hx⟩
        have := filter_replaceFirst_of_found
          (pkMatches (dictGetD args "task_id" JsonValue.null))
          (fun x => { x with completed := dictGetD args "completed" (JsonValue.bool true) })
          u (fun x => rfl) st.tasks t hget htu
        simpa using this

/-- Model of `bulk_complete_tasks` mutates only owned rows among the requested ids. -/
lemma bulkCompleteH_scoped (args : List (String × JsonValue)) (u : String) (st : TaskStore)
    (r : ToolResult) (st' : TaskStore) (h : bulkCompleteH args u st = Except.ok (r, st')) :
    st'.tasks.filter (fun x => x.user_id != u) = st.tasks.filter (fun x => x.user_id != u)
    ∧ ∀ t ∈ r.tasks, t.user_id = u := by
  simp only [bulkCompleteH] at h
  split at h
  · simp only [Except.ok.injEq, Prod.mk.injEq] at h
    obtain ⟨h1, h2⟩ := h
    subst h1
    subst h2
    exact ⟨rfl, by intro x hx; simp [errResult] at hx⟩
  · split at h
    · simp only [Except.ok.injEq, Prod.mk.injEq] at h
      obtain ⟨h1, h2⟩ := h
      subst h1
      subst h2
      exact ⟨rfl, by intro x hx; simp [errResult] at hx⟩
    · split at h
      · exact absurd h (by simp)
      · simp only [Except.ok.injEq, Prod.mk.injEq] at h
        obtain ⟨h1, h2⟩ := h
        subst h1
        subst h2
        refine ⟨?_, by intro x hx; simp [okResult] at hx⟩
        have hgu : ∀ x : Task,
            ((if inIdList (dictGetD args "task_ids" (JsonValue.arr [])) x && (x.user_id == u)
              then { x with completed := dictGetD args "completed" (JsonValue.bool true) }
              else x)).user_id = x.user_id := by
          intro x
          by_cases hc : (inIdList (dictGetD args "task_ids" (JsonValue.arr [])) x
              && (x.user_id == u)) = true
          · simp [hc]
          · simp only [Bool.not_eq_true] at hc
            simp [hc]
        have hid : ∀ x : Task, x.user_id ≠ u →
            (if inIdList (dictGetD args "task_ids" (JsonValue.arr [])) x && (x.user_id == u)
              then { x with completed := dictGetD args "completed" (JsonValue.bool true) }
              else x) = x := by
          intro x hx
          have hb : (x.user_id == u) = false := beq_eq_false_iff_ne.mpr hx
          simp [hb]
        have := filter_map_guard _ u hgu hid st.tasks
        simpa using this

/-- Model of `delete_task` removes only an owned row (id path checks ownership,
title path filters by owner). -/
lemma deleteTaskH_scoped (args : List (String × JsonValue)) (u : String) (st : TaskStore)
    (r : ToolResult) (st' : TaskStore) (h : deleteTaskH args u st = Except.ok (r, st')) :
    st'.tasks.filter (fun x => x.user_id != u) = st.tasks.filter (fun x => x.user_id != u)
    ∧ ∀ t ∈ r.tasks, t.user_id = u := by
  by_cases htr : pyTruthy (dictGetD args "task_id" JsonValue.null) = true
  · rcases hget : sessionGet st (dictGetD args "task_id" JsonValue.null) with _ | t
    · simp only [deleteTaskH, htr, if_true, hget] at h
      simp only [Except.ok.injEq, Prod.mk.injEq] at h
      obtain ⟨h1, h2⟩ := h
      subst h1
      subst h2
      exact ⟨rfl, by intro x hx; simp [errResult] at hx⟩
    · by_cases hown : (t.user_id != u) = true
      · simp only [deleteTaskH, htr, if_true, hget, hown] at h
        simp only [Except.ok.injEq, Prod.mk.injEq] at h
        obtain ⟨h1, h2⟩ := h
        subst h1
        subst h2
        exact ⟨rfl, by intro x hx; simp [errResult] at hx⟩
      · have hown' : (t.user_id != u) = false := by simpa using hown
        have htu : t.user_id = u := by simpa using hown'
        simp only [deleteTaskH, htr, if_true, hget, hown', Bool.false_eq_true, if_false] at h
        simp only [Except.ok.injEq, Prod.mk.injEq] at h
        obtain ⟨h1, h2⟩ := h
        subst h1
        subst h2
        refine ⟨?_, by intro x hx; simp [okResult] at hx⟩
        have := filter_removeFirst_of_found
          (pkMatches (dictGetD args "task_id" JsonValue.null)) u st.tasks t hget htu
        simpa using this
  · have htr' : pyTruthy (dictGetD args "task_id" JsonValue.null) = false := by
      simpa using htr
    by_cases htl : pyTruthy (dictGetD args "title" JsonValue.null) = true
    · rcases hfind : st.tasks.find? (titleMatchPred (dictGetD args "title" JsonValue.null) u)
        with _ | t
      · simp only [deleteTaskH, htr', Bool.false_eq_true, if_false, htl, if_true, hfind] at h
        simp only [Except.ok.injEq, Prod.mk.injEq] at h
        obtain ⟨h1, h2⟩ := h
        subst h1
        subst h2
        exact ⟨rfl, by intro x hx; simp [errResult] at hx⟩
      · have htu : t.user_id = u := by
          have hp := List.find?_some hfind
          simp only [titleMatchPred, Bool.and_eq_true] at hp
          simpa using hp.1
        simp only [deleteTaskH, htr', Bool.false_eq_true, if_false, htl, if_true, hfind] at h
        simp only [Except.ok.injEq, Prod.mk.injEq] at h
        obtain ⟨h1, h2⟩ := h
        subst h1
        subst h2
        refine ⟨?_, by intro x hx; simp [okResult] at hx⟩
        have := filter_removeFirst_of_found
          (titleMatchPred (dictGetD args "title" JsonValue.null) u) u st.tasks t hfind htu
        simpa using this
    · have htl' : pyTruthy (dictGetD args "title" JsonValue.null) = false := by
        simpa using htl
      simp only [deleteTaskH, htr', htl', Bool.false_eq_true, if_false] at h
      simp only [Except.ok.injEq, Prod.mk.injEq] at h
      obtain ⟨h1, h2⟩ := h
      subst h1
      subst h2
      exact ⟨rfl, by intro x hx; simp [errResult] at hx⟩

/-- Model of `bulk_delete_tasks` deletes only owned rows among the requested ids. -/
lemma bulkDeleteH_scoped (args : List (String × JsonValue)) (u : String) (st : TaskStore)
    (r : ToolResult) (st' : TaskStore) (h : bulkDeleteH args u st = Except.ok (r, st')) :
    st'.tasks.filter (fun x => x.user_id != u) = st.tasks.filter (fun x => x.user_id != u)
    ∧ ∀ t ∈ r.tasks, t.user_id = u := by
  simp only [bulkDeleteH] at h
  split at h
  · simp only [Except.ok.injEq, Prod.mk.injEq] at h
    obtain ⟨h1, h2⟩ := h
    subst h1
    subst h2
    exact ⟨rfl, by intro x hx; simp [errResult] at hx⟩
  · split at h
    · simp only [Except.ok.injEq, Prod.mk.injEq] at h
      obtain ⟨h1, h2⟩ := h
      subst h1
      subst h2
      exact ⟨rfl, by intro x hx; simp [errResult] at hx⟩
    · simp only [Except.ok.injEq, Prod.mk.injEq] at h
      obtain ⟨h1, h2⟩ := h
      subst h1
      subst h2
      refine ⟨?_, by intro x hx; simp [okResult] at hx⟩
      have hk : ∀ x : Task, x.user_id ≠ u →
          (!(inIdList (dictGetD args "task_ids" (JsonValue.arr [])) x && (x.user_id == u)))
            = true := by
        intro x hx
        have hb : (x.user_id == u) = false := beq_eq_false_iff_ne.mpr hx
        simp [hb]
      have := filter_filter_keep _ u hk st.tasks
      simpa using this

/-- Model of `update_task` mutates only the owned row it found. -/
lemma updateTaskH_scoped (args : List (String × JsonValue)) (u : String) (st : TaskStore)
    (r : ToolResult) (st' : TaskStore) (h : updateTaskH args u st = Except.ok (r, st')) :
    st'.tasks.filter (fun x => x.user_id != u) = st.tasks.filter (fun x => x.user_id != u)
    ∧ ∀ t ∈ r.tasks, t.user_id = u := by
  rcases hget : sessionGet st (dictGetD args "task_id" JsonValue.null) with _ | t
  · simp only [updateTaskH, hget] at h
    simp only [Except.ok.injEq, Prod.mk.injEq] at h
    obtain ⟨h1, h2⟩ := h
    subst h1
    subst h2
    exact ⟨rfl, by intro x hx; simp [errResult] at hx⟩
  · by_cases hown : (t.user_id != u) = true
    · simp only [updateTaskH, hget, hown, if_true] at h
      simp only [Except.ok.injEq, Prod.mk.injEq] at h
      obtain ⟨h1, h2⟩ := h
      subst h1
      subst h2
      exact ⟨rfl, by intro x hx; simp [errResult] at hx⟩
    · have hown' : (t.user_id != u) = false := by simpa using hown
      have htu : t.user_id = u := by simpa using hown'
      by_cases hnull : (((dictGet args "title").getD t.title == JsonValue.null)
          || ((dictGet args "description").getD t.description == JsonValue.null)
          || ((dictGet args "priority").getD t.priority == JsonValue.null)) = true
      · simp only [updateTaskH, hget, hown', Bool.false_eq_true, if_false, hnull, if_true] at h
        simp at h
      · have hnull' := (Bool.not_eq_true _).mp hnull
        simp only [updateTaskH, hget, hown', Bool.false_eq_true, if_false, hnull',
          if_false] at h
        simp only [Except.ok.injEq, Prod.mk.injEq] at h
        obtain ⟨h1, h2⟩ := h
        subst h1
        subst h2
        refine ⟨?_, by intro x hx; simp [okResult] at hx⟩
        have := filter_replaceFirst_of_found
          (pkMatches (dictGetD args "task_id" JsonValue.null))
          (fun x => { x with title := (dictGet args "title").getD t.title, description := (dictGet args "description").getD t.description, priority := (dictGet args "priority").getD t.priority })
          u (fun x => rfl) st.tasks t hget htu
        simpa using this

/-- Model of `get_weather` never touches the store and carries no task dumps. -/
lemma getWeatherH_scoped (wx : String → WeatherReply) (args : List (String × JsonValue))
    (st : TaskStore) (r : ToolResult) (st' : TaskStore)
    (h : getWeatherH wx args st = Except.ok (r, st')) :
    st' = st ∧ r.tasks = [] := by
  simp only [getWeatherH] at h
  split at h
  · simp only [Except.ok.injEq, Prod.mk.injEq] at h
    obtain ⟨h1, h2⟩ := h
    subst h1
    subst h2
    exact ⟨rfl, rfl⟩
  · simp only [Except.ok.injEq, Prod.mk.injEq] at h
    obtain ⟨h1, h2⟩ := h
    subst h1
    subst h2
    exact ⟨rfl, rfl⟩

/-- The day planner only ever appends rows owned by the calling user. -/
lemma dayPlanner_filter_other (llm : List Msg → String × String) (content : JsonValue)
    (u : String) (st : TaskStore) :
    ((dayPlannerExecute llm content u st).2).tasks.filter (fun x => x.user_id != u)
      = st.tasks.filter (fun x => x.user_id != u) := by
  simp only [dayPlannerExecute]
  repeat' split
  all_goals simp [List.filter_append, planTasks_filter_other]

/-- C4.  Every task the executor reads or writes belongs to the
authenticated user passed as the `user_id` parameter: for every tool name
and every argument mapping, a successful call leaves all other users' rows
exactly as they were, and every task dumped into the result payload is
owned by the authenticated user — ownership is never taken from the
model-supplied arguments. -/
theorem executor_user_scoping
    (wx : String → WeatherReply) (llm : List Msg → String × String) (now : Nat)
    (name : String) (args : List (String × JsonValue)) (user : String)
    (st : TaskStore) (r : ToolResult) (st' : TaskStore)
    (h : handle_tool_call wx llm now name args user st = Except.ok (r, st')) :
    st'.tasks.filter (fun t => t.user_id != user) = st.tasks.filter (fun t => t.user_id != user)
    ∧ ∀ t ∈ r.tasks, t.user_id = user := by
  unfold handle_tool_call at h
  by_cases h1 : (name == "add_task") = true
  · rw [if_pos h1] at h
    exact addTaskH_scoped args user st r st' h
  rw [if_neg h1] at h
  by_cases h2 : (name == "list_tasks") = true
  · rw [if_pos h2] at h
    obtain ⟨he, hm⟩ := listTasksH_scoped args user st r st' h
    subst he
    exact ⟨rfl, hm⟩
  rw [if_neg h2] at h
  by_cases h3 : (name == "complete_task") = true
  · rw [if_pos h3] at h
    exact completeTaskH_scoped args user st r st' h
  rw [if_neg h3] at h
  by_cases h4 : (name == "bulk_complete_tasks") = true
  · rw [if_pos h4] at h
    exact bulkCompleteH_scoped args user st r st' h
  rw [if_neg h4] at h
  by_cases h5 : (name == "delete_task") = true
  · rw [if_pos h5] at h
    exact deleteTaskH_scoped args user st r st' h
  rw [if_neg h5] at h
  by_cases h6 : (name == "bulk_delete_tasks") = true
  · rw [if_pos h6] at h
    exact bulkDeleteH_scoped args user st r st' h
  rw [if_neg h6] at h
  by_cases h7 : (name == "update_task") = true
  · rw [if_pos h7] at h
    exact updateTaskH_scoped args user st r st' h
  rw [if_neg h7] at h
  by_cases h8 : (name == "get_weather") = true
  · rw [if_pos h8] at h
    obtain ⟨he, hm⟩ := getWeatherH_scoped wx args st r st' h
    subst he
    exact ⟨rfl, by simp [hm]⟩
  rw [if_neg h8] at h
  by_cases h9 : (name == "detect_language") = true
  · rw [if_pos h9] at h
    split at h
    · simp only [Except.ok.injEq, Prod.mk.injEq] at h
      obtain ⟨ha, hb⟩ := h
      subst ha
      subst hb
      exact ⟨rfl, by intro x hx; simp at hx⟩
    · exact absurd h (by simp)
  rw [if_neg h9] at h
  by_cases h10 : (name == "suggest_priority") = true
  · rw [if_pos h10] at h
    split at h
    · simp only [Except.ok.injEq, Prod.mk.injEq] at h
      obtain ⟨ha, hb⟩ := h
      subst ha
      subst hb
      exact ⟨rfl, by intro x hx; simp at hx⟩
    · exact absurd h (by simp)
  rw [if_neg h10] at h
  by_cases h11 : (name == "schedule_reminder") = true
  · rw [if_pos h11] at h
    split at h
    · simp only [Except.ok.injEq, Prod.mk.injEq] at h
      obtain ⟨ha, hb⟩ := h
      subst ha
      subst hb
      exact ⟨rfl, by intro x hx; simp at hx⟩
    · exact absurd h (by simp)
  rw [if_neg h11] at h
  by_cases h12 : (name == "get_deployment_blueprint") = true
  · rw [if_pos h12] at h
    split at h
    · simp only [Except.ok.injEq, Prod.mk.injEq] at h
      obtain ⟨ha, hb⟩ := h
      subst ha
      subst hb
      exact ⟨rfl, by intro x hx; simp at hx⟩
    · exact absurd h (by simp)
  rw [if_neg h12] at h
  by_cases h13 : (name == "plan_day") = true
  · rw [if_pos h13] at h
    simp only [Except.ok.injEq, Prod.mk.injEq] at h
    obtain ⟨ha, hb⟩ := h
    subst ha
    subst hb
    refine ⟨?_, by intro x hx; simp at hx⟩
    exact dayPlanner_filter_other llm (dictGetD args "request" (JsonValue.str "")) user st
  rw [if_neg h13] at h
  exact absurd h (by simp)



/-- C4 witness: `add_task` for user "u" in a store holding a foreign row. -/
theorem executor_user_scoping_witness :
    wStorePost.tasks.filter (fun t => t.user_id != "u")
      = wStore.tasks.filter (fun t => t.user_id != "u")
    ∧ ∀ t ∈ wResult.tasks, t.user_id = "u" :=
  executor_user_scoping wxStub llmStub 0 "add_task" [("title", JsonValue.str "A")] "u"
    wStore wResult wStorePost (by rfl)

/-! ## C7: missing required arguments -/



/-- C7 counterexample.  `delete_task` with neither argument does return an
error result — but `add_task` invoked without `title` raises (the row is
built with a null title and the commit violates the NOT NULL constraint)
instead of returning an error result, so the claim's universal statement
is false. -/
theorem executor_missing_args_cex :
    handle_tool_call wxStub llmStub 0 "delete_task" [] "u" ⟨[], 1⟩
      = Except.ok (errResult "Please provide either task_id or title to delete.", ⟨[], 1⟩)
    ∧ exceptIsError (handle_tool_call wxStub llmStub 0 "add_task" [] "u" ⟨[], 1⟩) = true :=
  ⟨rfl, rfl⟩

/-- C7 amended.  `delete_task` invoked with neither `task_id` nor `title`
returns an error result with an explanatory message, and the bulk tools
return an error result when the id list is absent or empty; but `add_task`
does not validate `title`: invoked without it, the handler raises (the
commit fails on the null title), which the loop's outer handler turns into
the generic apology. -/
theorem executor_missing_args_amended
    (wx : String → WeatherReply) (llm : List Msg → String × String) (now : Nat)
    (args : List (String × JsonValue)) (user : String) (st : TaskStore)
    (hid : pyTruthy (dictGetD args "task_id" JsonValue.null) = false)
    (hids : pyTruthy (dictGetD args "task_ids" (JsonValue.arr [])) = false)
    (hnotitle : dictGetD args "title" JsonValue.null = JsonValue.null) :
    handle_tool_call wx llm now "delete_task" args user st
      = Except.ok (errResult "Please provide either task_id or title to delete.", st)
    ∧ handle_tool_call wx llm now "bulk_complete_tasks" args user st
      = Except.ok (errResult "No task IDs provided.", st)
    ∧ handle_tool_call wx llm now "bulk_delete_tasks" args user st
      = Except.ok (errResult "No task IDs provided.", st)
    ∧ handle_tool_call wx llm now "add_task" args user st = Except.error NOT_NULL_ERR := by
  have hti : pyTruthy (dictGetD args "title" JsonValue.null) = false := by
    rw [hnotitle]
    rfl
  refine ⟨?_, ?_, ?_, ?_⟩
  · show deleteTaskH args user st = _
    simp only [deleteTaskH, hid, hti, Bool.false_eq_true, if_false]
  · show bulkCompleteH args user st = _
    simp only [bulkCompleteH, hids, Bool.not_false, if_true]
  · show bulkDeleteH args user st = _
    simp only [bulkDeleteH, hids, Bool.not_false, if_true]
  · show addTaskH args user st = _
    have hb : (dictGetD args "title" JsonValue.null == JsonValue.null) = true := by
      rw [hnotitle]
      rfl
    simp only [addTaskH, hb, Bool.true_or, if_true]

/-- C7 amended, instantiated at empty arguments. -/
theorem executor_missing_args_amended_witness :
    handle_tool_call wxStub llmStub 0 "bulk_delete_tasks" [] "u" ⟨[], 1⟩
      = Except.ok (errResult "No task IDs provided.", ⟨[], 1⟩)
    ∧ handle_tool_call wxStub llmStub 0 "add_task" [] "u" ⟨[], 1⟩
      = Except.error NOT_NULL_ERR := by
  have h := executor_missing_args_amended wxStub llmStub 0 [] "u" ⟨[], 1⟩ rfl rfl rfl
  exact ⟨h.2.2.1, h.2.2.2⟩

/-! ## C8: bulk operations report actual counts and respect ownership -/

/-- C8.  Both bulk tools select only rows owned by the authenticated user
among the requested ids, report the count actually affected (never the
count requested), and leave every row of other users in place. -/
theorem bulk_ops_ownership_counts
    (wx : String → WeatherReply) (llm : List Msg → String × String) (now : Nat)
    (args : List (String × JsonValue)) (user : String) (st : TaskStore)
    (ids : List JsonValue)
    (hids : dictGetD args "task_ids" (JsonValue.arr []) = JsonValue.arr ids)
    (hne : pyTruthy (JsonValue.arr ids) = true)
    (hcomp : (dictGetD args "completed" (JsonValue.bool true) == JsonValue.null) = false) :
    (st.tasks.filter (fun t => inIdList (JsonValue.arr ids) t && t.user_id == user) ≠ [] →
      handle_tool_call wx llm now "bulk_delete_tasks" args user st
        = Except.ok (okResult ("Deleted "
            ++ toString (st.tasks.filter
                (fun t => inIdList (JsonValue.arr ids) t && t.user_id == user)).length
            ++ " tasks."),
            { st with tasks := (st.tasks.filter
                (fun t => !(inIdList (JsonValue.arr ids) t && t.user_id == user))) }))
    ∧ (st.tasks.filter (fun t => inIdList (JsonValue.arr ids) t && t.user_id == user) = [] →
      handle_tool_call wx llm now "bulk_delete_tasks" args user st
        = Except.ok (errResult "No valid tasks found to delete.", st))
    ∧ (st.tasks.filter (fun t => inIdList (JsonValue.arr ids) t && t.user_id == user) ≠ [] →
      handle_tool_call wx llm now "bulk_complete_tasks" args user st
        = Except.ok (okResult (toString (st.tasks.filter
              (fun t => inIdList (JsonValue.arr ids) t && t.user_id == user)).length
            ++ " tasks "
            ++ (if pyTruthy (dictGetD args "completed" (JsonValue.bool true))
                then "completed" else "marked as pending") ++ "."),
            { st with tasks := (st.tasks.map (fun t =>
                if inIdList (JsonValue.arr ids) t && t.user_id == user then
                  { t with completed := dictGetD args "completed" (JsonValue.bool true) }
                else t)) }))
    ∧ (∀ t ∈ st.tasks.filter (fun t => inIdList (JsonValue.arr ids) t && t.user_id == user),
        t.user_id = user)
    ∧ (∀ t ∈ st.tasks, t.user_id ≠ user →
        t ∈ st.tasks.filter (fun t => !(inIdList (JsonValue.arr ids) t && t.user_id == user))) := by
  have hnonempty : ∀ (l : List Task), l ≠ [] → l.isEmpty = false := by
    intro l hl
    cases l with
    | nil => exact absurd rfl hl
    | cons a l => rfl
  refine ⟨?_, ?_, ?_, ?_, ?_⟩
  · intro haff
    show bulkDeleteH args user st = _
    simp only [bulkDeleteH, hids, hne, Bool.not_true, Bool.false_eq_true, if_false,
      hnonempty _ haff]
  · intro haff
    show bulkDeleteH args user st = _
    simp only [bulkDeleteH, hids, hne, Bool.not_true, Bool.false_eq_true, if_false, haff,
      List.isEmpty_nil, if_true]
  · intro haff
    show bulkCompleteH args user st = _
    simp only [bulkCompleteH, hids, hne, Bool.not_true, Bool.false_eq_true, if_false,
      hnonempty _ haff, hcomp]
  · intro t ht
    have := (List.mem_filter.mp ht).2
    have h2 := (Bool.and_eq_true _ _).mp this |>.2
    simpa using h2
  · intro t ht hne'
    refine List.mem_filter.mpr ⟨ht, ?_⟩
    have hb : (t.user_id == user) = false := beq_eq_false_iff_ne.mpr hne'
    simp [hb]



/-- C8 witness: deleting `[1, 2, 999]` as "u" reports "Deleted 2 tasks."
and row 999 survives. -/
theorem bulk_ops_ownership_counts_witness :
    handle_tool_call wxStub llmStub 0 "bulk_delete_tasks"
        [("task_ids", JsonValue.arr [.num 1, .num 2, .num 999])] "u" bStore
      = Except.ok (okResult "Deleted 2 tasks.",
          ⟨[⟨999, "v", .str "Other", .str "", .bool false, .str "low", .arr []⟩], 1000⟩)
    ∧ (⟨999, "v", .str "Other", .str "", .bool false, .str "low", .arr []⟩ : Task)
        ∈ (⟨[⟨999, "v", .str "Other", .str "", .bool false, .str "low", .arr []⟩], 1000⟩
            : TaskStore).tasks := by
  have h := bulk_ops_ownership_counts wxStub llmStub 0
    [("task_ids", JsonValue.arr [.num 1, .num 2, .num 999])] "u" bStore
    [.num 1, .num 2, .num 999] rfl rfl rfl
  have hfil : bStore.tasks.filter
      (fun t => inIdList (JsonValue.arr [.num 1, .num 2, .num 999]) t && t.user_id == "u")
      = [⟨1, "u", .str "Alpha", .str "", .bool false, .str "medium", .arr []⟩,
         ⟨2, "u", .str "Beta", .str "", .bool false, .str "high", .arr []⟩] := rfl
  refine ⟨(h.1 (by rw [hfil]; simp)).trans (by rfl), by simp⟩

/-! ## C9: the day planner -/

/-- Model of `planTasks` creates exactly one row per parsed object. -/
lemma planTasks_length (u : String) :
    ∀ (objs : List (List (String × JsonValue))) (i : Int),
      (planTasks u i objs).length = objs.length := by
  intro objs
  induction objs with
  | nil => intro i; rfl
  | cons o objs ih => intro i; simp [planTasks, ih]

/-- Model of `mapM` over `Option` preserves length. -/
lemma mapM_asObj_length :
    ∀ (l : List JsonValue) (res : List (List (String × JsonValue))),
      l.mapM asObjMembers = some res → res.length = l.length := by
  intro l
  induction l with
  | nil =>
    intro res h
    simp only [List.mapM_nil, Option.pure_def, Option.some.injEq] at h
    subst h
    rfl
  | cons a l ih =>
    intro res h
    simp only [List.mapM_cons, Option.pure_def, Option.bind_eq_bind, Option.bind_eq_some] at h
    obtain ⟨b, hb, rest, hrest, hres⟩ := h
    have hres' := Option.some.inj hres
    subst hres'
    simp [ih rest hrest]

/-- C9 counterexample.  Two nested responses parse to non-empty lists on
which the planner creates zero tasks and returns the generic failure text,
so "a parsed non-empty list creates exactly one Task per list element" is
false as stated: on `[1]`, `task_data.get` on the integer element raises
before any commit; on a list holding the object with a null title, the row
is built with `title=None` and the commit violates the NOT NULL
constraint, leaving the store unchanged. -/
theorem day_planner_nonobject_cex :
    json_loads "[1]" = some (JsonValue.arr [JsonValue.num 1])
    ∧ dayPlannerExecute (fun _ => ("[1]", "m")) (JsonValue.str "plan my day") "u" ⟨[], 1⟩
      = ("Failed to generate plan: \x27int\x27 object has no attribute \x27get\x27", ⟨[], 1⟩)
    ∧ json_loads "[\x7b\"title\": null\x7d]"
      = some (JsonValue.arr [JsonValue.obj [("title", JsonValue.null)]])
    ∧ dayPlannerExecute (fun _ => ("[\x7b\"title\": null\x7d]", "m"))
        (JsonValue.str "plan my day") "u" ⟨[], 1⟩
      = ("Failed to generate plan: " ++ NOT_NULL_ERR, ⟨[], 1⟩) :=
  ⟨rfl, rfl, rfl, rfl⟩

/-- C9 amended.  The planner strips only the markdown fences from the
nested response (`planJson` — no whole-text retry, no regex step) and
parses the remainder; a parse failure yields the generic failure text with
the store unchanged; a non-list top level yields the type-mismatch error
text; an empty list yields the distinct "nothing identified" text; a
non-empty list of objects whose title, description and priority values are
all non-null creates exactly one Task per element; a list containing a
non-object element creates no tasks and yields the generic failure text;
and a list of objects in which some row carries null in a NOT NULL column
(title, description or priority) likewise creates no tasks and yields the
failure text, because the commit raises. -/
theorem day_planner_amended
    (llm : List Msg → String × String) (content : JsonValue) (user : String) (st : TaskStore)
    (huser : user ≠ "") :
    (json_loads (planJson llm content) = none →
      dayPlannerExecute llm content user st
        = ("Failed to generate plan: " ++ JSON_DECODE_ERR, st))
    ∧ (∀ v, json_loads (planJson llm content) = some v → (∀ elems, v ≠ JsonValue.arr elems) →
      dayPlannerExecute llm content user st
        = ("Error: AI returned " ++ pyTypeName v ++ ", expected list.", st))
    ∧ (json_loads (planJson llm content) = some (JsonValue.arr []) →
      (dayPlannerExecute llm content user st).1 = "No tasks identified in your request."
      ∧ (dayPlannerExecute llm content user st).2.tasks = st.tasks)
    ∧ (∀ elems objs, json_loads (planJson llm content) = some (JsonValue.arr elems) →
        elems.mapM asObjMembers = some objs →
        (planTasks user st.nextId objs).any planRowNull = false →
        (dayPlannerExecute llm content user st).2.tasks
            = st.tasks ++ planTasks user st.nextId objs
        ∧ (planTasks user st.nextId objs).length = elems.length)
    ∧ (∀ elems, json_loads (planJson llm content) = some (JsonValue.arr elems) →
        elems.mapM asObjMembers = none →
        (dayPlannerExecute llm content user st).2 = st
        ∧ ∃ suffix, (dayPlannerExecute llm content user st).1
            = "Failed to generate plan: " ++ suffix)
    ∧ (∀ elems objs, json_loads (planJson llm content) = some (JsonValue.arr elems) →
        elems.mapM asObjMembers = some objs →
        (planTasks user st.nextId objs).any planRowNull = true →
        dayPlannerExecute llm content user st
          = ("Failed to generate plan: " ++ NOT_NULL_ERR, st)) := by
  have hu : (user == "") = false := beq_eq_false_iff_ne.mpr huser
  refine ⟨?_, ?_, ?_, ?_, ?_, ?_⟩
  · intro hp
    simp only [dayPlannerExecute, hu, Bool.false_eq_true, if_false, hp]
  · intro v hp hnarr
    rcases v with _ | b | n | x | s | elems | kvs
    case arr => exact absurd rfl (hnarr elems)
    all_goals (simp only [dayPlannerExecute, hu, Bool.false_eq_true, if_false, hp]; try rfl)
  · intro hp
    simp only [dayPlannerExecute, hu, Bool.false_eq_true, if_false, hp]
    constructor
    · rfl
    · show st.tasks ++ [] = st.tasks
      exact List.append_nil _
  · intro elems objs hp hm hnull
    simp only [dayPlannerExecute, hu, Bool.false_eq_true, if_false, hp, hm, hnull,
      Bool.false_eq_true, if_false]
    constructor
    · split
      · simp
      · split
        · rfl
        · rfl
    · rw [planTasks_length]
      exact mapM_asObj_length elems objs hm
  · intro elems hp hm
    simp only [dayPlannerExecute, hu, Bool.false_eq_true, if_false, hp, hm]
    constructor
    · split
      · rfl
      · rfl
    · split
      · exact ⟨_, rfl⟩
      · exact ⟨_, rfl⟩
  · intro elems objs hp hm hnull
    simp only [dayPlannerExecute, hu, Bool.false_eq_true, if_false, hp, hm, hnull, if_true]



/-- C9 amended, instantiated: one task per object on the good list, no
store change on the list with an integer element, and the failure text
with an unchanged store on the list whose object has a null title. -/
theorem day_planner_amended_witness :
    (dayPlannerExecute llmPlanGood (JsonValue.str "plan") "u" ⟨[], 1⟩).2.tasks
      = [⟨1, "u", .str "Gym", .str "", .bool false, .str "high", .arr []⟩]
    ∧ (dayPlannerExecute llmPlanBad (JsonValue.str "plan") "u" ⟨[], 1⟩).2 = ⟨[], 1⟩
    ∧ dayPlannerExecute llmPlanNull (JsonValue.str "plan") "u" ⟨[], 1⟩
        = ("Failed to generate plan: " ++ NOT_NULL_ERR, ⟨[], 1⟩) := by
  have hg := day_planner_amended llmPlanGood (JsonValue.str "plan") "u" ⟨[], 1⟩ (by decide)
  have hb := day_planner_amended llmPlanBad (JsonValue.str "plan") "u" ⟨[], 1⟩ (by decide)
  have hn := day_planner_amended llmPlanNull (JsonValue.str "plan") "u" ⟨[], 1⟩ (by decide)
  refine ⟨?_, ?_, ?_⟩
  · have h := (hg.2.2.2.1 [JsonValue.obj [("title", .str "Gym"), ("priority", .str "high")]]
      [[("title", JsonValue.str "Gym"), ("priority", JsonValue.str "high")]] rfl rfl rfl).1
    exact h.trans (by rfl)
  · exact (hb.2.2.2.2.1 [JsonValue.num 1] rfl rfl).1
  · exact hn.2.2.2.2.2 [JsonValue.obj [("title", JsonValue.null)]]
      [[("title", JsonValue.null)]] rfl rfl rfl

end TodoEvolve
